import Mathlib

/-!
Verification of the account auto-configuration core of deltachat-core-rust.

The Rust sources under `src/configure/mod.rs`, `src/dc_imap.rs` and
`src/sql.rs` are embedded shallowly: pure functions become Lean functions,
stateful code becomes explicit state passing, the environment (network,
IMAP servers, SQLite, clock) becomes an oracle record threaded through the
code.  Rust `i32` values stay well inside the 32-bit range everywhere the
embedded code touches them, so they are modelled as `Nat` (every value in
play is nonnegative), with two's-complement 32-bit bitwise operations
defined below by structural recursion so that they evaluate inside the
kernel.  Rust `&str` values are modelled as `String` where only equality
matters and as `List Char` where the code slices by byte position (all
sliced text is ASCII, so byte positions and character positions coincide).
-/

/-! ### 32-bit bitwise arithmetic

Executable two's-complement operations for the `server_flags` bit field.
The fuel-based recursion processes one binary digit per step; 32 digits
cover every value the embedded code manipulates (all flag constants are
below 2^20, and `not32` keeps results below 2^32). -/

def andBits : Nat → Nat → Nat → Nat
  | 0, _, _ => 0
  | fuel + 1, m, n => m % 2 * (n % 2) + 2 * andBits fuel (m / 2) (n / 2)

def orBits : Nat → Nat → Nat → Nat
  | 0, _, _ => 0
  | fuel + 1, m, n => max (m % 2) (n % 2) + 2 * orBits fuel (m / 2) (n / 2)

/-- Rust `a & b` on the 32-bit flag words in play. -/
def and32 (m n : Nat) : Nat := andBits 32 m n

/-- Rust `a | b` on the 32-bit flag words in play. -/
def or32 (m n : Nat) : Nat := orBits 32 m n

/-- Rust `!a` (bitwise not) on a 32-bit word: two's complement on 32 bits. -/
def not32 (v : Nat) : Nat := 0xffffffff - v

/-! ### Server-flag constants

Modelled from the spec: `crate::constants` is not among the embedded source
files.  Section 3 of the spec describes `server_flags` as a bit field of
three disjoint groups (auth, IMAP socket, SMTP socket); the literal values
0x100 (IMAP STARTTLS) and 0x400 (IMAP PLAIN) are visible in
`configure/mod.rs` step 13, and the remaining bits follow the crate's
published constant table. -/

def DC_LP_AUTH_OAUTH2 : Nat := 0x2

def DC_LP_AUTH_NORMAL : Nat := 0x4

def DC_LP_AUTH_FLAGS : Nat := 0x6

def DC_LP_IMAP_SOCKET_STARTTLS : Nat := 0x100

def DC_LP_IMAP_SOCKET_SSL : Nat := 0x200

def DC_LP_IMAP_SOCKET_PLAIN : Nat := 0x400

def DC_LP_IMAP_SOCKET_FLAGS : Nat := 0x700

def DC_LP_SMTP_SOCKET_STARTTLS : Nat := 0x10000

def DC_LP_SMTP_SOCKET_SSL : Nat := 0x20000

def DC_LP_SMTP_SOCKET_PLAIN : Nat := 0x40000

def DC_LP_SMTP_SOCKET_FLAGS : Nat := 0x70000

/-- `dc_exactly_one_bit_set` from `dc_tools` (its file is not under the
embedded sources; the test is the standard power-of-two check the spec's
step 13 describes: a nonzero value with `v AND (v-1) = 0`; the Rust `&&`
short-circuits before `v - 1` is taken at `v = 0`, so truncated `Nat`
subtraction is faithful). -/
def dc_exactly_one_bit_set (v : Nat) : Bool :=
  v ≠ 0 && and32 v (v - 1) = 0

/-! ### Folder classification (`dc_imap.rs`, `get_folder_meaning`) -/

/-- `FolderMeaning` from `dc_imap.rs`. -/
inductive FolderMeaning
  | Unknown
  | SentObjects
  | Other
deriving DecidableEq

/-- The `imap::types::NameAttribute` variants the wire library delivers:
the four standard RFC 3501 attributes plus a custom label. -/
inductive NameAttribute
  | NoInferiors
  | NoSelect
  | Marked
  | Unmarked
  | Custom (label : String)
deriving DecidableEq

/-- One entry of an IMAP LIST response (`imap::types::Name`): a folder name
and its server-assigned attribute labels. -/
structure ImapName where
  name : String
  attributes : List NameAttribute
deriving DecidableEq

/-- The folder names treated as a sent folder by `get_folder_meaning_by_name`. -/
def sent_names : List String := ["sent", "sent objects", "gesendet"]

/-- `get_folder_meaning_by_name` from `dc_imap.rs`: case-insensitive match
of the folder name against `sent_names`. -/
def get_folder_meaning_by_name (folder_name : ImapName) : FolderMeaning :=
  let lower := folder_name.name.toLower
  if sent_names.contains lower then FolderMeaning.SentObjects
  else FolderMeaning.Unknown

/-- The attribute labels `get_folder_meaning` treats as special (non-sent)
folders. -/
def special_names : List String := ["\\Spam", "\\Trash", "\\Drafts", "\\Junk"]

/-- The body of `get_folder_meaning`'s attribute loop: one iteration updates
the running result `res` from one attribute. -/
def classify_attr (res : FolderMeaning) (attr : NameAttribute) : FolderMeaning :=
  match attr with
  | NameAttribute.Custom label =>
      if special_names.contains label then FolderMeaning.Other
      else if label = "\\Sent" then FolderMeaning.SentObjects
      else res
  | _ => res

/-- `get_folder_meaning` from `dc_imap.rs`: an empty attribute set yields
`Unknown` at once; otherwise the attributes are scanned in order and the
running result falls back to name matching only when no attribute matched. -/
def get_folder_meaning (folder_name : ImapName) : FolderMeaning :=
  if folder_name.attributes.isEmpty then FolderMeaning.Unknown
  else
    let res := folder_name.attributes.foldl classify_attr FolderMeaning.Unknown
    match res with
    | FolderMeaning.Unknown => get_folder_meaning_by_name folder_name
    | r => r

/-- The verdict a single attribute casts, if any: a special label votes
`Other`, a Sent label votes `SentObjects`, everything else abstains. -/
def label_verdict (attr : NameAttribute) : Option FolderMeaning :=
  match attr with
  | NameAttribute.Custom label =>
      if special_names.contains label then some FolderMeaning.Other
      else if label = "\\Sent" then some FolderMeaning.SentObjects
      else none
  | _ => none

/-- The verdict of the last attribute that casts one (the loop in
`get_folder_meaning` overwrites the running result, so the last matching
label wins). -/
def last_verdict (attrs : List NameAttribute) : Option FolderMeaning :=
  attrs.reverse.findSome? label_verdict

/-! ### Housekeeping (`sql.rs`: `housekeeping`, `is_file_in_use`,
`maybe_add_file`)

File names are `List Char` (the code slices them by byte position; every
sliced prefix is ASCII).  The Rust `HashSet<String>` becomes a
`Finset (List Char)`.  A Rust panic (out-of-bounds slice) is modelled as
`none`. -/

/-- The marker under which rows reference files in the blob directory. -/
def blobdir_marker : List Char := "$BLOBDIR".data

/-- `maybe_add_file` from `sql.rs`.  The source returns early unless `file`
starts with `$BLOBDIR`, then inserts `file[9..]`; that slice panics
(`none`) when the string is shorter than 9 bytes, which given the prefix
means exactly the 8-byte string `$BLOBDIR` itself. -/
def maybe_add_file (files_in_use : Finset (List Char)) (file : List Char) :
    Option (Finset (List Char)) :=
  if ¬ blobdir_marker.isPrefixOf file then some files_in_use
  else if file.length < 9 then none
  else some (insert (file.drop 9) files_in_use)

/-- `is_file_in_use` from `sql.rs`: with a namespace suffix the name must be
strictly longer than the suffix and end with it, and the stripped name is
looked up; without one the name itself is looked up. -/
def is_file_in_use (files_in_use : Finset (List Char))
    (namespc_opt : Option (List Char)) (name : List Char) : Bool :=
  match namespc_opt with
  | some namespc =>
      if name.length ≤ namespc.length || ¬ namespc.isSuffixOf name then false
      else decide (name.take (name.length - namespc.length) ∈ files_in_use)
  | none => decide (name ∈ files_in_use)

/-- The result of one `fs::metadata` call: each timestamp may be
unavailable (the Rust accessors return `Result`). -/
structure FileStats where
  created : Option Nat
  modified : Option Nat
  accessed : Option Nat
deriving DecidableEq

/-- One entry of the blob directory walk: the file name and the metadata,
which itself may be unreadable. -/
structure DirEntry where
  name : List Char
  stats : Option FileStats
deriving DecidableEq

/-- One timestamp check of `housekeeping`: available and newer than the
cutoff. -/
def stat_recent (keep_files_newer_than : Nat) (t : Option Nat) : Bool :=
  match t with
  | some tv => decide (tv > keep_files_newer_than)
  | none => false

/-- The per-file decision of `housekeeping`'s directory walk: `true` when
the walk deletes the file, `false` when it keeps it (the `continue`
branches of the loop).  `keep_files_newer_than` is `now - 1 hour`. -/
def housekeeping_deletes (files_in_use : Finset (List Char))
    (keep_files_newer_than : Nat) (entry : DirEntry) : Bool :=
  if is_file_in_use files_in_use none entry.name
      || is_file_in_use files_in_use (some ".increation".data) entry.name
      || is_file_in_use files_in_use (some ".waveform".data) entry.name
      || is_file_in_use files_in_use (some "-preview.jpg".data) entry.name
  then false
  else
    match entry.stats with
    | some stats =>
        if stat_recent keep_files_newer_than stats.created
            || stat_recent keep_files_newer_than stats.modified
            || stat_recent keep_files_newer_than stats.accessed
        then false
        else true
    | none => true

/-- The collection phase of `housekeeping`: `maybe_add_file` folded over
the `$BLOBDIR`-candidate strings drawn from the scanned rows (`msgs.param`,
`jobs.param`, `chats.param`, `contacts.param`, `config.value`; the
extraction of the strings from the rows is the SQL layer, outside this
model). -/
def collect_files : List (List Char) → Finset (List Char) →
    Option (Finset (List Char))
  | [], acc => some acc
  | v :: vs, acc =>
      match maybe_add_file acc v with
      | none => none
      | some acc2 => collect_files vs acc2

/-- The three variant suffixes `housekeeping` strips before lookup. -/
def variant_suffixes : List (List Char) :=
  [".increation".data, ".waveform".data, "-preview.jpg".data]

/-- A name is referenced when it is in the collected set as-is, or after
stripping one variant suffix that is properly present at its end. -/
def referenced_in (files_in_use : Finset (List Char)) (name : List Char) : Prop :=
  name ∈ files_in_use ∨
    ∃ suf ∈ variant_suffixes, suf <:+ name ∧ suf.length < name.length ∧
      name.take (name.length - suf.length) ∈ files_in_use

/-- A directory entry is recently touched when its metadata is readable and
one of the three timestamps is available and newer than the cutoff. -/
def recently_touched (keep_files_newer_than : Nat) (entry : DirEntry) : Prop :=
  ∃ stats, entry.stats = some stats ∧
    ((∃ t, stats.created = some t ∧ keep_files_newer_than < t) ∨
     (∃ t, stats.modified = some t ∧ keep_files_newer_than < t) ∨
     (∃ t, stats.accessed = some t ∧ keep_files_newer_than < t))

/-! ### IMAP session connect (`dc_imap.rs`, `dc_imap_t::connect`)

The session object guarded by the mutex becomes an `Option SessionKind`;
the C-style nullable `dc_loginparam_t` pointer becomes an
`Option dc_loginparam_t` whose string fields are themselves nullable.  The
TCP/TLS dial, the STARTTLS upgrade, the LOGIN exchange and the CAPABILITY
response are the environment. -/

/-- The two variants of the `Session` enum in `dc_imap.rs`. -/
inductive SessionKind
  | Secure
  | Insecure
deriving DecidableEq

/-- The fields of the C `dc_loginparam_t` that `connect` touches; each
`*const c_char` may be null. -/
structure dc_loginparam_t where
  addr : Option String
  mail_server : Option String
  mail_port : Nat
  mail_user : Option String
  mail_pw : Option String
  server_flags : Nat
deriving DecidableEq

/-- The observable state of a `dc_imap_t`: the session slot and the two
capability flags recorded in `ImapConfig` (kept as the `i32` the source
stores). -/
structure ImapSessionState where
  session : Option SessionKind
  can_idle : Nat
  has_xlist : Nat
deriving DecidableEq

/-- What the network does during one `connect` call. -/
structure ImapConnectEnv where
  tcp_ok : Bool
  starttls_ok : Bool
  login_ok : Bool
  caps : List String

/-- `dc_imap_t::connect` from `dc_imap.rs`: null checks, the
already-connected short-circuit, then the dial (insecure with optional
STARTTLS upgrade when a STARTTLS or PLAIN socket flag is set, TLS
otherwise), LOGIN, and on success the capability recording. -/
def dc_imap_connect (env : ImapConnectEnv) (st : ImapSessionState)
    (lp : Option dc_loginparam_t) : Nat × ImapSessionState :=
  match lp with
  | none => (0, st)
  | some lp =>
      if lp.mail_server = none ∨ lp.mail_user = none ∨ lp.mail_pw = none then
        (0, st)
      else if st.session.isSome then (1, st)
      else
        let server_flags := lp.server_flags
        let connection_res : Option SessionKind :=
          if and32 server_flags
              (or32 DC_LP_IMAP_SOCKET_STARTTLS DC_LP_IMAP_SOCKET_PLAIN) ≠ 0 then
            if env.tcp_ok then
              if and32 server_flags DC_LP_IMAP_SOCKET_STARTTLS ≠ 0 then
                if env.starttls_ok then some SessionKind.Secure else none
              else some SessionKind.Insecure
            else none
          else if env.tcp_ok then some SessionKind.Secure else none
        match connection_res with
        | some kind =>
            if env.login_ok then
              (1, { session := some kind,
                    can_idle := if env.caps.contains "IDLE" then 1 else 0,
                    has_xlist := if env.caps.contains "XLIST" then 1 else 0 })
            else (0, st)
        | none => (0, st)

/-! ### Config store open and schema migration (`sql.rs`, `open`)

The SQLite database is modelled by the raw-config key-value table the
migrations read and write (`String → Option Int`: every key the chain
touches holds an integer), a transcript of the executed DDL/DML statements,
and a flag for whether the `config` table exists.  The connection pool,
busy timeout and the high-level post-migration hooks (peerstate
fingerprint recalculation, icon updates) are I/O; the two hook-request
flags the chain computes are kept observable. -/

structure SqlDb where
  cfg : String → Option Int
  schema : List String
  has_config_table : Bool

/-- The local mutable state of `open`'s read-write branch: the database,
the `dbversion` local variable, and the two post-migration hook flags. -/
structure MigState where
  db : SqlDb
  dbv : Int
  recalc_fingerprints : Bool
  update_icons : Bool

/-- `sql.set_raw_config_int` as the migrations use it. -/
def mig_set_int (s : MigState) (key : String) (v : Int) : MigState :=
  { s with db := { s.db with
      cfg := fun k => if k = key then some v else s.db.cfg k } }

/-- `sql.execute` of one DDL/DML statement: recorded in the transcript. -/
def mig_exec (s : MigState) (stmt : String) : MigState :=
  { s with db := { s.db with schema := s.db.schema ++ [stmt] } }

def migration_v1 (s : MigState) : MigState :=
  if s.dbv < 1 then
    let s := mig_exec s "CREATE TABLE leftgrps ( id INTEGER PRIMARY KEY, grpid TEXT DEFAULT '');"
    let s := mig_exec s "CREATE INDEX leftgrps_index1 ON leftgrps (grpid);"
    let s := { s with dbv := 1 }
    mig_set_int s "dbversion" 1
  else s

def migration_v2 (s : MigState) : MigState :=
  if s.dbv < 2 then
    let s := mig_exec s "ALTER TABLE contacts ADD COLUMN authname TEXT DEFAULT '';"
    let s := { s with dbv := 2 }
    mig_set_int s "dbversion" 2
  else s

def migration_v7 (s : MigState) : MigState :=
  if s.dbv < 7 then
    let s := mig_exec s "CREATE TABLE keypairs ( id INTEGER PRIMARY KEY, addr TEXT DEFAULT '' COLLATE NOCASE, is_default INTEGER DEFAULT 0, private_key, public_key, created INTEGER DEFAULT 0);"
    let s := { s with dbv := 7 }
    mig_set_int s "dbversion" 7
  else s

def migration_v10 (s : MigState) : MigState :=
  if s.dbv < 10 then
    let s := mig_exec s "CREATE TABLE acpeerstates ( id INTEGER PRIMARY KEY, addr TEXT DEFAULT '' COLLATE NOCASE, last_seen INTEGER DEFAULT 0, last_seen_autocrypt INTEGER DEFAULT 0, public_key, prefer_encrypted INTEGER DEFAULT 0);"
    let s := mig_exec s "CREATE INDEX acpeerstates_index1 ON acpeerstates (addr);"
    let s := { s with dbv := 10 }
    mig_set_int s "dbversion" 10
  else s

def migration_v12 (s : MigState) : MigState :=
  if s.dbv < 12 then
    let s := mig_exec s "CREATE TABLE msgs_mdns ( msg_id INTEGER,  contact_id INTEGER);"
    let s := mig_exec s "CREATE INDEX msgs_mdns_index1 ON msgs_mdns (msg_id);"
    let s := { s with dbv := 12 }
    mig_set_int s "dbversion" 12
  else s

def migration_v17 (s : MigState) : MigState :=
  if s.dbv < 17 then
    let s := mig_exec s "ALTER TABLE chats ADD COLUMN archived INTEGER DEFAULT 0;"
    let s := mig_exec s "CREATE INDEX chats_index2 ON chats (archived);"
    let s := mig_exec s "ALTER TABLE msgs ADD COLUMN starred INTEGER DEFAULT 0;"
    let s := mig_exec s "CREATE INDEX msgs_index5 ON msgs (starred);"
    let s := { s with dbv := 17 }
    mig_set_int s "dbversion" 17
  else s

def migration_v18 (s : MigState) : MigState :=
  if s.dbv < 18 then
    let s := mig_exec s "ALTER TABLE acpeerstates ADD COLUMN gossip_timestamp INTEGER DEFAULT 0;"
    let s := mig_exec s "ALTER TABLE acpeerstates ADD COLUMN gossip_key;"
    let s := { s with dbv := 18 }
    mig_set_int s "dbversion" 18
  else s

def migration_v27 (s : MigState) : MigState :=
  if s.dbv < 27 then
    let s := mig_exec s "DELETE FROM msgs WHERE chat_id=1 OR chat_id=2;"
    let s := mig_exec s "CREATE INDEX chats_contacts_index2 ON chats_contacts (contact_id);"
    let s := mig_exec s "ALTER TABLE msgs ADD COLUMN timestamp_sent INTEGER DEFAULT 0;"
    let s := mig_exec s "ALTER TABLE msgs ADD COLUMN timestamp_rcvd INTEGER DEFAULT 0;"
    let s := { s with dbv := 27 }
    mig_set_int s "dbversion" 27
  else s

def migration_v34 (s : MigState) : MigState :=
  if s.dbv < 34 then
    let s := mig_exec s "ALTER TABLE msgs ADD COLUMN hidden INTEGER DEFAULT 0;"
    let s := mig_exec s "ALTER TABLE msgs_mdns ADD COLUMN timestamp_sent INTEGER DEFAULT 0;"
    let s := mig_exec s "ALTER TABLE acpeerstates ADD COLUMN public_key_fingerprint TEXT DEFAULT '';"
    let s := mig_exec s "ALTER TABLE acpeerstates ADD COLUMN gossip_key_fingerprint TEXT DEFAULT '';"
    let s := mig_exec s "CREATE INDEX acpeerstates_index3 ON acpeerstates (public_key_fingerprint);"
    let s := mig_exec s "CREATE INDEX acpeerstates_index4 ON acpeerstates (gossip_key_fingerprint);"
    let s := { s with recalc_fingerprints := true, dbv := 34 }
    mig_set_int s "dbversion" 34
  else s

def migration_v39 (s : MigState) : MigState :=
  if s.dbv < 39 then
    let s := mig_exec s "CREATE TABLE tokens ( id INTEGER PRIMARY KEY, namespc INTEGER DEFAULT 0, foreign_id INTEGER DEFAULT 0, token TEXT DEFAULT '', timestamp INTEGER DEFAULT 0);"
    let s := mig_exec s "ALTER TABLE acpeerstates ADD COLUMN verified_key;"
    let s := mig_exec s "ALTER TABLE acpeerstates ADD COLUMN verified_key_fingerprint TEXT DEFAULT '';"
    let s := mig_exec s "CREATE INDEX acpeerstates_index5 ON acpeerstates (verified_key_fingerprint);"
    let s := { s with dbv := 39 }
    mig_set_int s "dbversion" 39
  else s

def migration_v40 (s : MigState) : MigState :=
  if s.dbv < 40 then
    let s := mig_exec s "ALTER TABLE jobs ADD COLUMN thread INTEGER DEFAULT 0;"
    let s := { s with dbv := 40 }
    mig_set_int s "dbversion" 40
  else s

def migration_v44 (s : MigState) : MigState :=
  if s.dbv < 44 then
    let s := mig_exec s "ALTER TABLE msgs ADD COLUMN mime_headers TEXT;"
    let s := { s with dbv := 44 }
    mig_set_int s "dbversion" 44
  else s

def migration_v46 (s : MigState) : MigState :=
  if s.dbv < 46 then
    let s := mig_exec s "ALTER TABLE msgs ADD COLUMN mime_in_reply_to TEXT;"
    let s := mig_exec s "ALTER TABLE msgs ADD COLUMN mime_references TEXT;"
    let s := { s with dbv := 46 }
    mig_set_int s "dbversion" 46
  else s

def migration_v47 (s : MigState) : MigState :=
  if s.dbv < 47 then
    let s := mig_exec s "ALTER TABLE jobs ADD COLUMN tries INTEGER DEFAULT 0;"
    let s := { s with dbv := 47 }
    mig_set_int s "dbversion" 47
  else s

def migration_v48 (s : MigState) : MigState :=
  if s.dbv < 48 then
    let s := mig_exec s "ALTER TABLE msgs ADD COLUMN move_state INTEGER DEFAULT 1;"
    let s := { s with dbv := 48 }
    mig_set_int s "dbversion" 48
  else s

def migration_v49 (s : MigState) : MigState :=
  if s.dbv < 49 then
    let s := mig_exec s "ALTER TABLE chats ADD COLUMN gossiped_timestamp INTEGER DEFAULT 0;"
    let s := { s with dbv := 49 }
    mig_set_int s "dbversion" 49
  else s

/-- Modelled from the spec: `ShowEmails::All` of `crate::constants` (the
file is not among the embedded sources); only its distinguished integer
value matters here, `2` per the crate's enum order Off, AcceptedContacts,
All. -/
def SHOW_EMAILS_ALL : Int := 2

def migration_v50 (exists_before_update : Bool) (s : MigState) : MigState :=
  if s.dbv < 50 then
    let s := if exists_before_update then
        mig_set_int s "show_emails" SHOW_EMAILS_ALL
      else s
    let s := { s with dbv := 50 }
    mig_set_int s "dbversion" 50
  else s

def migration_v53 (s : MigState) : MigState :=
  if s.dbv < 53 then
    let s := mig_exec s "CREATE TABLE locations ( id INTEGER PRIMARY KEY AUTOINCREMENT, latitude REAL DEFAULT 0.0, longitude REAL DEFAULT 0.0, accuracy REAL DEFAULT 0.0, timestamp INTEGER DEFAULT 0, chat_id INTEGER DEFAULT 0, from_id INTEGER DEFAULT 0);"
    let s := mig_exec s "CREATE INDEX locations_index1 ON locations (from_id);"
    let s := mig_exec s "CREATE INDEX locations_index2 ON locations (timestamp);"
    let s := mig_exec s "ALTER TABLE chats ADD COLUMN locations_send_begin INTEGER DEFAULT 0;"
    let s := mig_exec s "ALTER TABLE chats ADD COLUMN locations_send_until INTEGER DEFAULT 0;"
    let s := mig_exec s "ALTER TABLE chats ADD COLUMN locations_last_sent INTEGER DEFAULT 0;"
    let s := mig_exec s "CREATE INDEX chats_index3 ON chats (locations_send_until);"
    let s := { s with dbv := 53 }
    mig_set_int s "dbversion" 53
  else s

def migration_v54 (s : MigState) : MigState :=
  if s.dbv < 54 then
    let s := mig_exec s "ALTER TABLE msgs ADD COLUMN location_id INTEGER DEFAULT 0;"
    let s := mig_exec s "CREATE INDEX msgs_index6 ON msgs (location_id);"
    let s := { s with dbv := 54 }
    mig_set_int s "dbversion" 54
  else s

/-- From v55 on the source no longer updates the local `dbversion`
variable, only the stored key; the chain stays correct because the stale
local value keeps every later guard true. -/
def migration_v55 (s : MigState) : MigState :=
  if s.dbv < 55 then
    let s := mig_exec s "ALTER TABLE locations ADD COLUMN independent INTEGER DEFAULT 0;"
    mig_set_int s "dbversion" 55
  else s

def migration_v59 (exists_before_update : Bool) (s : MigState) : MigState :=
  if s.dbv < 59 then
    let s := mig_exec s "CREATE TABLE devmsglabels (id INTEGER PRIMARY KEY AUTOINCREMENT, label TEXT, msg_id INTEGER DEFAULT 0);"
    let s := mig_exec s "CREATE INDEX devmsglabels_index1 ON devmsglabels (label);"
    let s := if exists_before_update && (s.db.cfg "bcc_self").isNone then
        mig_set_int s "bcc_self" 1
      else s
    mig_set_int s "dbversion" 59
  else s

def migration_v60 (s : MigState) : MigState :=
  if s.dbv < 60 then
    let s := mig_exec s "ALTER TABLE chats ADD COLUMN created_timestamp INTEGER DEFAULT 0;"
    mig_set_int s "dbversion" 60
  else s

def migration_v61 (s : MigState) : MigState :=
  if s.dbv < 61 then
    let s := mig_exec s "ALTER TABLE contacts ADD COLUMN selfavatar_sent INTEGER DEFAULT 0;"
    let s := { s with update_icons := true }
    mig_set_int s "dbversion" 61
  else s

def migration_v62 (s : MigState) : MigState :=
  if s.dbv < 62 then
    let s := mig_exec s "ALTER TABLE chats ADD COLUMN muted_until INTEGER DEFAULT 0;"
    mig_set_int s "dbversion" 62
  else s

def migration_v63 (s : MigState) : MigState :=
  if s.dbv < 63 then
    let s := mig_exec s "UPDATE chats SET grpid='' WHERE type=100"
    mig_set_int s "dbversion" 63
  else s

/-- The migration chain of `open`, in source order. -/
def run_migrations (exists_before_update : Bool) (s : MigState) : MigState :=
  migration_v63 (migration_v62 (migration_v61 (migration_v60
    (migration_v59 exists_before_update (migration_v55 (migration_v54
      (migration_v53 (migration_v50 exists_before_update (migration_v49
        (migration_v48 (migration_v47 (migration_v46 (migration_v44
          (migration_v40 (migration_v39 (migration_v34 (migration_v27
            (migration_v18 (migration_v17 (migration_v12 (migration_v10
              (migration_v7 (migration_v2 (migration_v1 s))))))))))))))))))))))))

/-- The first-time-init DDL of `open` (the `dbversion=0` base schema). -/
def base_schema_stmts : List String :=
  ["CREATE TABLE config (id INTEGER PRIMARY KEY, keyname TEXT, value TEXT);",
   "CREATE INDEX config_index1 ON config (keyname);",
   "CREATE TABLE contacts ( id INTEGER PRIMARY KEY AUTOINCREMENT, name TEXT DEFAULT '', addr TEXT DEFAULT '' COLLATE NOCASE, origin INTEGER DEFAULT 0, blocked INTEGER DEFAULT 0, last_seen INTEGER DEFAULT 0, param TEXT DEFAULT '');",
   "CREATE INDEX contacts_index1 ON contacts (name COLLATE NOCASE);",
   "CREATE INDEX contacts_index2 ON contacts (addr COLLATE NOCASE);",
   "INSERT INTO contacts (id,name,origin) VALUES (1,'self',262144), (2,'info',262144), (3,'rsvd',262144), (4,'rsvd',262144), (5,'device',262144), (6,'rsvd',262144), (7,'rsvd',262144), (8,'rsvd',262144), (9,'rsvd',262144);",
   "CREATE TABLE chats ( id INTEGER PRIMARY KEY AUTOINCREMENT,  type INTEGER DEFAULT 0, name TEXT DEFAULT '', draft_timestamp INTEGER DEFAULT 0, draft_txt TEXT DEFAULT '', blocked INTEGER DEFAULT 0, grpid TEXT DEFAULT '', param TEXT DEFAULT '');",
   "CREATE INDEX chats_index1 ON chats (grpid);",
   "CREATE TABLE chats_contacts (chat_id INTEGER, contact_id INTEGER);",
   "CREATE INDEX chats_contacts_index1 ON chats_contacts (chat_id);",
   "INSERT INTO chats (id,type,name) VALUES (1,120,'deaddrop'), (2,120,'rsvd'), (3,120,'trash'), (4,120,'msgs_in_creation'), (5,120,'starred'), (6,120,'archivedlink'), (7,100,'rsvd'), (8,100,'rsvd'), (9,100,'rsvd');",
   "CREATE TABLE msgs ( id INTEGER PRIMARY KEY AUTOINCREMENT, rfc724_mid TEXT DEFAULT '', server_folder TEXT DEFAULT '', server_uid INTEGER DEFAULT 0, chat_id INTEGER DEFAULT 0, from_id INTEGER DEFAULT 0, to_id INTEGER DEFAULT 0, timestamp INTEGER DEFAULT 0, type INTEGER DEFAULT 0, state INTEGER DEFAULT 0, msgrmsg INTEGER DEFAULT 1, bytes INTEGER DEFAULT 0, txt TEXT DEFAULT '', txt_raw TEXT DEFAULT '', param TEXT DEFAULT '');",
   "CREATE INDEX msgs_index1 ON msgs (rfc724_mid);",
   "CREATE INDEX msgs_index2 ON msgs (chat_id);",
   "CREATE INDEX msgs_index3 ON msgs (timestamp);",
   "CREATE INDEX msgs_index4 ON msgs (state);",
   "INSERT INTO msgs (id,msgrmsg,txt) VALUES (1,0,'marker1'), (2,0,'rsvd'), (3,0,'rsvd'), (4,0,'rsvd'), (5,0,'rsvd'), (6,0,'rsvd'), (7,0,'rsvd'), (8,0,'rsvd'), (9,0,'daymarker');",
   "CREATE TABLE jobs ( id INTEGER PRIMARY KEY AUTOINCREMENT, added_timestamp INTEGER, desired_timestamp INTEGER DEFAULT 0, action INTEGER, foreign_id INTEGER, param TEXT DEFAULT '');",
   "CREATE INDEX jobs_index1 ON jobs (desired_timestamp);"]

/-- The read-write branch of `open` from `sql.rs`: first-time table
creation or `dbversion` read, then the migration chain.  (The readonly
branch skips all of this; the pool construction and the post-migration
hooks are I/O outside the model.) -/
def sql_open_rw (db : SqlDb) : MigState :=
  let init : MigState × Bool :=
    if ¬ db.has_config_table then
      let db2 := { db with
        schema := db.schema ++ base_schema_stmts,
        has_config_table := true }
      let s := mig_set_int ⟨db2, 0, false, false⟩ "dbversion" 0
      (⟨s.db, 0, false, false⟩, false)
    else
      (⟨db, (db.cfg "dbversion").getD 0, false, false⟩, true)
  run_migrations init.2 init.1

/-- The DDL/DML statements the chain runs when upgrading from v49. -/
def post49_stmts : List String :=
  ["CREATE TABLE locations ( id INTEGER PRIMARY KEY AUTOINCREMENT, latitude REAL DEFAULT 0.0, longitude REAL DEFAULT 0.0, accuracy REAL DEFAULT 0.0, timestamp INTEGER DEFAULT 0, chat_id INTEGER DEFAULT 0, from_id INTEGER DEFAULT 0);",
   "CREATE INDEX locations_index1 ON locations (from_id);",
   "CREATE INDEX locations_index2 ON locations (timestamp);",
   "ALTER TABLE chats ADD COLUMN locations_send_begin INTEGER DEFAULT 0;",
   "ALTER TABLE chats ADD COLUMN locations_send_until INTEGER DEFAULT 0;",
   "ALTER TABLE chats ADD COLUMN locations_last_sent INTEGER DEFAULT 0;",
   "CREATE INDEX chats_index3 ON chats (locations_send_until);",
   "ALTER TABLE msgs ADD COLUMN location_id INTEGER DEFAULT 0;",
   "CREATE INDEX msgs_index6 ON msgs (location_id);",
   "ALTER TABLE locations ADD COLUMN independent INTEGER DEFAULT 0;",
   "CREATE TABLE devmsglabels (id INTEGER PRIMARY KEY AUTOINCREMENT, label TEXT, msg_id INTEGER DEFAULT 0);",
   "CREATE INDEX devmsglabels_index1 ON devmsglabels (label);",
   "ALTER TABLE chats ADD COLUMN created_timestamp INTEGER DEFAULT 0;",
   "ALTER TABLE contacts ADD COLUMN selfavatar_sent INTEGER DEFAULT 0;",
   "ALTER TABLE chats ADD COLUMN muted_until INTEGER DEFAULT 0;",
   "UPDATE chats SET grpid='' WHERE type=100"]

/-! ### The configuration job (`configure/mod.rs`, `job_configure_imap`)

The step machine becomes a fuel-indexed loop over an explicit state.  The
environment (database open, ongoing slot, cancellation polls, OAuth
resolution, address parsing, provider database, autoconfig probes, IMAP
and SMTP connection attempts, folder configuration, key generation) is an
oracle record; the cancellation flag and the two connection oracles are
consumed by call index, counted in the state.  Progress emissions
accumulate in `events`; the probe URLs issued and the login parameters
each IMAP/SMTP connection attempt uses are recorded so the theorems can
speak about them. -/

/-- `CertificateChecks` from `login_param.rs` (the file is not embedded;
the variants are the spec's section 3 list). -/
inductive CertificateChecks
  | Automatic
  | Strict
  | AcceptInvalidCertificates
deriving DecidableEq

/-- `LoginParam` from `login_param.rs`: the working parameter set of the
pipeline (fields as the spec's section 3 lists them). -/
structure LoginParam where
  addr : String
  mail_server : String
  mail_user : String
  mail_pw : String
  mail_port : Nat
  imap_certificate_checks : CertificateChecks
  send_server : String
  send_user : String
  send_pw : String
  send_port : Nat
  smtp_certificate_checks : CertificateChecks
  server_flags : Nat
deriving DecidableEq

/-- Modelled from the spec: `LoginParam::new()` (in the non-embedded
`login_param.rs`) — every textual field empty, every port and the flag
word zero. -/
def LoginParam.new : LoginParam :=
  { addr := "", mail_server := "", mail_user := "", mail_pw := ""
    mail_port := 0, imap_certificate_checks := CertificateChecks.Automatic
    send_server := "", send_user := "", send_pw := "", send_port := 0
    smtp_certificate_checks := CertificateChecks.Automatic, server_flags := 0 }

/-- `provider::Socket`. -/
inductive ProviderSocket
  | STARTTLS
  | SSL
deriving DecidableEq

/-- A provider-database server entry (`provider.rs` is not embedded; the
shape follows the spec's `ServerSpec` and the uses in
`get_offline_autoconfig`, with `apply_username_pattern` kept abstract). -/
structure ServerSpec where
  hostname : String
  port : Nat
  socket : ProviderSocket
  apply_username_pattern : String → String

/-- `provider::Status`. -/
inductive ProviderStatus
  | OK
  | PREPARATION
  | BROKEN
deriving DecidableEq

/-- A provider-database record as `get_offline_autoconfig` consumes it. -/
structure ProviderInfo where
  status : ProviderStatus
  imap : Option ServerSpec
  smtp : Option ServerSpec
  after_login_hint : String

/-- `get_offline_autoconfig` from `configure/mod.rs`, with the
provider-database lookup itself (`provider::get_provider_info`) passed in
as a function of the address. -/
def get_offline_autoconfig (get_provider_info : String → Option ProviderInfo)
    (param : LoginParam) : Option LoginParam :=
  match get_provider_info param.addr with
  | some provider =>
      match provider.status with
      | ProviderStatus.BROKEN => none
      | _ =>
          match provider.imap, provider.smtp with
          | some imap, some smtp =>
              let p := LoginParam.new
              let p := { p with addr := param.addr }
              let p := { p with
                mail_server := imap.hostname
                mail_user := imap.apply_username_pattern param.addr
                mail_port := imap.port
                imap_certificate_checks :=
                  CertificateChecks.AcceptInvalidCertificates
                server_flags := or32 p.server_flags
                  (match imap.socket with
                   | ProviderSocket.STARTTLS => DC_LP_IMAP_SOCKET_STARTTLS
                   | ProviderSocket.SSL => DC_LP_IMAP_SOCKET_SSL) }
              let p := { p with
                send_server := smtp.hostname
                send_user := smtp.apply_username_pattern param.addr
                send_port := smtp.port
                smtp_certificate_checks :=
                  CertificateChecks.AcceptInvalidCertificates
                server_flags := or32 p.server_flags
                  (match smtp.socket with
                   | ProviderSocket.STARTTLS => DC_LP_SMTP_SOCKET_STARTTLS
                   | ProviderSocket.SSL => DC_LP_SMTP_SOCKET_SSL) }
              some p
          | _, _ => none
  | none => none

/-- The environment of one configuration job run. -/
structure JobEnv where
  sql_open : Bool
  alloc_ok : Bool
  stop : Nat → Bool
  initial_param : LoginParam
  oauth2_addr : String → String → Option String
  parse_domain : String → Option String
  urlencode : String → String
  get_provider_info : String → Option ProviderInfo
  moz : String → LoginParam → Option LoginParam
  outlk : String → LoginParam → Option LoginParam
  imap_connect : Nat → Bool
  smtp_connect : Nat → Bool
  folders_ok : Bool
  select_ok : Bool
  e2ee_ok : Bool

/-- The mutable state of `job_configure_imap`: the step-local variables of
the source, the emitted progress values, the oracle call counters, and the
observation trails (probe URLs, connection-attempt parameters). -/
structure JobState where
  param : LoginParam
  param_autoconfig : Option LoginParam
  param_domain : String
  param_addr_urlencoded : String
  keep_flags : Nat
  step_counter : Nat
  events : List Nat
  success : Bool
  imap_connected_here : Bool
  smtp_connected_here : Bool
  stopIdx : Nat
  imapIdx : Nat
  smtpIdx : Nat
  probed : List String
  imap_attempts : List LoginParam
  smtp_attempts : List LoginParam

/-- `progress!(context, n)`. -/
def emit (s : JobState) (progress : Nat) : JobState :=
  { s with events := s.events ++ [progress] }

/-- One `context.shall_stop_ongoing()` poll. -/
def poll_stop (env : JobEnv) (s : JobState) : Bool × JobState :=
  (env.stop s.stopIdx, { s with stopIdx := s.stopIdx + 1 })

/-- `try_imap_one_param` from `configure/mod.rs`: one `imap.connect`
attempt with the current parameters; on failure a cancellation poll
decides between giving up (`some false`) and letting the caller vary the
parameters (`none`). -/
def try_imap_one_param (env : JobEnv) (s : JobState) : Option Bool × JobState :=
  let ok := env.imap_connect s.imapIdx
  let s := { s with imapIdx := s.imapIdx + 1
                    imap_attempts := s.imap_attempts ++ [s.param] }
  if ok then (some true, s)
  else
    let r := poll_stop env s
    if r.1 then (some false, r.2) else (none, r.2)

/-- `try_imap_connection` from `configure/mod.rs`: within one pass, try the
current settings, then (unless autoconfig supplied them) STARTTLS, then
port 143. -/
def try_imap_connection (env : JobEnv) (s : JobState) (was_autoconfig : Bool)
    (variation : Nat) : Option Bool × JobState :=
  match try_imap_one_param env s with
  | (some res, s) => (some res, s)
  | (none, s) =>
      if was_autoconfig then (some false, s)
      else
        let s := emit s (650 + variation * 30)
        let s := { s with param := { s.param with
          server_flags := or32
            (and32 s.param.server_flags (not32 DC_LP_IMAP_SOCKET_FLAGS))
            DC_LP_IMAP_SOCKET_STARTTLS } }
        match try_imap_one_param env s with
        | (some res, s) => (some res, s)
        | (none, s) =>
            let s := emit s (660 + variation * 30)
            let s := { s with param := { s.param with mail_port := 143 } }
            try_imap_one_param env s

/-- Rust `mail_user.split_at(at).0` at the first `@`, as
`try_imap_connections` strips domains from user names (no `@`: unchanged). -/
def take_before_at (u : String) : String :=
  match u.data.findIdx? (fun c => c = Char.ofNat 64) with
  | some at_pos => String.mk (u.data.take at_pos)
  | none => u

/-- `try_imap_connections` from `configure/mod.rs`: two passes over
`try_imap_connection`; between them the socket is reset to SSL on 993 and
both user names lose everything from `@` on. -/
def try_imap_connections (env : JobEnv) (s : JobState) (was_autoconfig : Bool) :
    Bool × JobState :=
  match try_imap_connection env s was_autoconfig 0 with
  | (some res, s) => (res, s)
  | (none, s) =>
      let s := emit s 670
      let s := { s with param := { s.param with
        server_flags := or32
          (and32 s.param.server_flags (not32 DC_LP_IMAP_SOCKET_FLAGS))
          DC_LP_IMAP_SOCKET_SSL
        mail_port := 993 } }
      let s := { s with param := { s.param with
        mail_user := take_before_at s.param.mail_user } }
      let s := { s with param := { s.param with
        send_user := take_before_at s.param.send_user } }
      match try_imap_connection env s was_autoconfig 1 with
      | (some res, s) => (res, s)
      | (none, s) => (false, s)

/-- `try_smtp_one_param` from `configure/mod.rs`. -/
def try_smtp_one_param (env : JobEnv) (s : JobState) : Option Bool × JobState :=
  let ok := env.smtp_connect s.smtpIdx
  let s := { s with smtpIdx := s.smtpIdx + 1
                    smtp_attempts := s.smtp_attempts ++ [s.param] }
  if ok then (some true, s)
  else
    let r := poll_stop env s
    if r.1 then (some false, r.2) else (none, r.2)

/-- `try_smtp_connections` from `configure/mod.rs`: the current settings,
then (unless autoconfig supplied them) STARTTLS on 587, then STARTTLS on
25. -/
def try_smtp_connections (env : JobEnv) (s : JobState) (was_autoconfig : Bool) :
    Bool × JobState :=
  match try_smtp_one_param env s with
  | (some res, s) => (res, s)
  | (none, s) =>
      if was_autoconfig then (false, s)
      else
        let s := emit s 850
        let s := { s with param := { s.param with
          server_flags := or32
            (and32 s.param.server_flags (not32 DC_LP_SMTP_SOCKET_FLAGS))
            DC_LP_SMTP_SOCKET_STARTTLS
          send_port := 587 } }
        match try_smtp_one_param env s with
        | (some res, s) => (res, s)
        | (none, s) =>
            let s := emit s 860
            let s := { s with param := { s.param with
              server_flags := or32
                (and32 s.param.server_flags (not32 DC_LP_SMTP_SOCKET_FLAGS))
                DC_LP_SMTP_SOCKET_STARTTLS
              send_port := 25 } }
            match try_smtp_one_param env s with
            | (some res, s) => (res, s)
            | (none, s) => (false, s)

/-- One autoconfig probe step (the body shared by steps 5 to 11): the URL
is built and fetched only while no configuration has been found yet. -/
def probe_step (s : JobState) (url : String) (ans : Option LoginParam) :
    JobState :=
  if s.param_autoconfig.isNone then
    { s with param_autoconfig := ans, probed := s.probed ++ [url] }
  else s

/-- The outcome of one arm of the step `match`: proceed with the arm's
success value, or leave the loop (`break`). -/
inductive StepOutcome
  | next (ok : Bool)
  | brk

/-- `replacen("imap", "smtp", 1)` under the guard that the string starts
with `imap.`: the first occurrence is the prefix, so the four bytes are
swapped. -/
def replacen_imap_smtp (v : String) : String :=
  "smtp" ++ String.mk (v.data.drop 4)

/-- Step 13 of `job_configure_imap` (the default-fill step), factored out
as a pure function of the working parameters and the parsed domain: fill
the missing fields in source order, normalize each of the three flag
groups to exactly one bit, and report whether the configuration is
complete. -/
def default_fill (param0 : LoginParam) (param_domain : String) :
    LoginParam × Bool :=
  let p := param0
  let p :=
    if p.mail_server.isEmpty then
      { p with mail_server := "imap." ++ param_domain }
    else p
  let p :=
    if p.mail_port = 0 then
      { p with
        mail_port :=
          if and32 p.server_flags (or32 0x100 0x400) ≠ 0 then 143
          else 993 }
    else p
  let p :=
    if p.mail_user.isEmpty then { p with mail_user := p.addr }
    else p
  let p :=
    if p.send_server.isEmpty ∧ ! p.mail_server.isEmpty then
      let send_server := p.mail_server
      let send_server :=
        if "imap.".data.isPrefixOf send_server.data then
          replacen_imap_smtp send_server
        else send_server
      { p with send_server := send_server }
    else p
  let p :=
    if p.send_port = 0 then
      { p with
        send_port :=
          if and32 p.server_flags DC_LP_SMTP_SOCKET_STARTTLS ≠ 0 then 587
          else if and32 p.server_flags DC_LP_SMTP_SOCKET_PLAIN ≠ 0 then 25
          else 465 }
    else p
  let p :=
    if p.send_user.isEmpty ∧ ! p.mail_user.isEmpty then
      { p with send_user := p.mail_user }
    else p
  let p :=
    if p.send_pw.isEmpty ∧ ! p.mail_pw.isEmpty then
      { p with send_pw := p.mail_pw }
    else p
  let p :=
    if ! dc_exactly_one_bit_set (and32 p.server_flags DC_LP_AUTH_FLAGS) then
      { p with
        server_flags :=
          or32 (and32 p.server_flags (not32 DC_LP_AUTH_FLAGS))
            DC_LP_AUTH_NORMAL }
    else p
  let p :=
    if ! dc_exactly_one_bit_set
        (and32 p.server_flags DC_LP_IMAP_SOCKET_FLAGS) then
      { p with
        server_flags :=
          or32 (and32 p.server_flags (not32 DC_LP_IMAP_SOCKET_FLAGS))
            (if p.send_port = 143 then DC_LP_IMAP_SOCKET_STARTTLS
             else DC_LP_IMAP_SOCKET_SSL) }
    else p
  let p :=
    if ! dc_exactly_one_bit_set
        (and32 p.server_flags DC_LP_SMTP_SOCKET_FLAGS) then
      { p with
        server_flags :=
          or32 (and32 p.server_flags (not32 DC_LP_SMTP_SOCKET_FLAGS))
            (if p.send_port = 587 then DC_LP_SMTP_SOCKET_STARTTLS
             else if p.send_port = 25 then DC_LP_SMTP_SOCKET_PLAIN
             else DC_LP_SMTP_SOCKET_SSL) }
    else p
  if p.mail_server.isEmpty ∨ p.mail_port = 0 ∨ p.mail_user.isEmpty ∨
      p.mail_pw.isEmpty ∨ p.send_server.isEmpty ∨ p.send_port = 0 ∨
      p.send_user.isEmpty ∨ p.send_pw.isEmpty ∨ p.server_flags = 0 then
    (p, false)
  else (p, true)

/-- One iteration body of the step machine: the `match step_counter` of
`job_configure_imap`, numbered as in the source (the jump targets 11 and
12 are `STEP_12_USE_AUTOCONFIG - 1` and `STEP_13_AFTER_AUTOCONFIG - 1`,
set before the loop increments the counter).  Store writes (the OAuth
address persistence of step 2 and the `configured_*` snapshot of step 17)
are the config-store layer, modelled separately with the epilogue. -/
def do_step (env : JobEnv) (s : JobState) : StepOutcome × JobState :=
  match s.step_counter with
  | 1 =>
      let s := emit s 1
      (StepOutcome.next (! s.param.addr.isEmpty), s)
  | 2 =>
      if and32 s.param.server_flags DC_LP_AUTH_OAUTH2 ≠ 0 then
        let s := emit s 10
        let s :=
          match env.oauth2_addr s.param.addr s.param.mail_pw with
          | some oauth2_addr => { s with param := { s.param with addr := oauth2_addr } }
          | none => s
        let s := emit s 20
        (StepOutcome.next true, s)
      else (StepOutcome.next true, s)
  | 3 =>
      match env.parse_domain s.param.addr with
      | some dom =>
          (StepOutcome.next true,
           { s with param_domain := dom
                    param_addr_urlencoded := env.urlencode s.param.addr })
      | none => (StepOutcome.next false, s)
  | 4 =>
      let s := emit s 200
      if s.param.mail_server.isEmpty ∧ s.param.mail_port = 0 ∧
          s.param.send_server.isEmpty ∧ s.param.send_port = 0 ∧
          s.param.send_user.isEmpty ∧
          and32 s.param.server_flags (not32 DC_LP_AUTH_OAUTH2) = 0 then
        let s := { s with
          keep_flags := and32 s.param.server_flags DC_LP_AUTH_OAUTH2 }
        match get_offline_autoconfig env.get_provider_info s.param with
        | some new_param =>
            (StepOutcome.next true,
             { s with param_autoconfig := some new_param, step_counter := 11 })
        | none => (StepOutcome.next true, s)
      else (StepOutcome.next true, { s with step_counter := 12 })
  | 5 =>
      let url := "https://autoconfig." ++ s.param_domain ++
        "/mail/config-v1.1.xml?emailaddress=" ++ s.param_addr_urlencoded
      (StepOutcome.next true, probe_step s url (env.moz url s.param))
  | 6 =>
      let s := emit s 300
      let url := "https://" ++ s.param_domain ++
        "/.well-known/autoconfig/mail/config-v1.1.xml?emailaddress=" ++
        s.param_addr_urlencoded
      (StepOutcome.next true, probe_step s url (env.moz url s.param))
  | 7 =>
      let s := emit s 310
      let url := "https://" ++ s.param_domain ++ "/autodiscover/autodiscover.xml"
      (StepOutcome.next true, probe_step s url (env.outlk url s.param))
  | 8 =>
      let s := emit s 320
      let url := "https://" ++ "autodiscover." ++ s.param_domain ++
        "/autodiscover/autodiscover.xml"
      (StepOutcome.next true, probe_step s url (env.outlk url s.param))
  | 9 =>
      let s := emit s 330
      let url := "http://autoconfig." ++ s.param_domain ++
        "/mail/config-v1.1.xml?emailaddress=" ++ s.param_addr_urlencoded
      (StepOutcome.next true, probe_step s url (env.moz url s.param))
  | 10 =>
      let s := emit s 340
      let url := "http://" ++ s.param_domain ++
        "/.well-known/autoconfig/mail/config-v1.1.xml"
      (StepOutcome.next true, probe_step s url (env.moz url s.param))
  | 11 =>
      let s := emit s 350
      let url := "https://autoconfig.thunderbird.net/v1.1/" ++ s.param_domain
      (StepOutcome.next true, probe_step s url (env.moz url s.param))
  | 12 =>
      let s := emit s 500
      let s :=
        match s.param_autoconfig with
        | some cfg =>
            let s :=
              if ! cfg.mail_user.isEmpty then
                { s with param := { s.param with mail_user := cfg.mail_user } }
              else s
            { s with param := { s.param with
                mail_server := cfg.mail_server
                mail_port := cfg.mail_port
                send_server := cfg.send_server
                send_port := cfg.send_port
                send_user := cfg.send_user
                server_flags := cfg.server_flags } }
        | none => s
      (StepOutcome.next true,
       { s with param := { s.param with
           server_flags := or32 s.param.server_flags s.keep_flags } })
  | 13 =>
      let r := default_fill s.param s.param_domain
      (StepOutcome.next r.2, { s with param := r.1 })
  | 14 =>
      let s := emit s 600
      let r := try_imap_connections env s s.param_autoconfig.isSome
      (StepOutcome.next r.1, { r.2 with imap_connected_here := r.1 })
  | 15 =>
      let s := emit s 800
      let r := try_smtp_connections env s s.param_autoconfig.isSome
      (StepOutcome.next r.1, { r.2 with smtp_connected_here := r.1 })
  | 16 =>
      let s := emit s 900
      if ! env.folders_ok then (StepOutcome.next false, s)
      else if ! env.select_ok then (StepOutcome.next false, s)
      else (StepOutcome.next true, s)
  | 17 =>
      let s := emit s 910
      (StepOutcome.next true, s)
  | 18 =>
      let s := emit s 920
      let s := { s with success := env.e2ee_ok }
      let s := emit s 940
      (StepOutcome.brk, s)
  | _ => (StepOutcome.brk, s)

/-- The `while !context.shall_stop_ongoing()` loop of `job_configure_imap`:
poll, advance the counter, run the step, stop on `break` or a failed step.
The fuel only bounds the iteration count; `JOB_FUEL` below exceeds the 18
steps the forward-only counter can visit. -/
def run_steps (env : JobEnv) : Nat → JobState → JobState
  | 0, s => s
  | fuel + 1, s =>
      let r := poll_stop env s
      if r.1 then r.2
      else
        let s := { r.2 with step_counter := r.2.step_counter + 1 }
        match do_step env s with
        | (StepOutcome.brk, s) => s
        | (StepOutcome.next ok, s) => if ok then run_steps env fuel s else s

def JOB_FUEL : Nat := 32

/-- The state `job_configure_imap` starts its loop with (the source's
variable initializers). -/
def initial_job_state (env : JobEnv) : JobState :=
  { param := env.initial_param
    param_autoconfig := none
    param_domain := "undefined.undefined"
    param_addr_urlencoded := "Internal Error: this value should never be used"
    keep_flags := 0
    step_counter := 0
    events := []
    success := false
    imap_connected_here := false
    smtp_connected_here := false
    stopIdx := 0
    imapIdx := 0
    smtpIdx := 0
    probed := []
    imap_attempts := []
    smtp_attempts := [] }

/-- `job_configure_imap` from `configure/mod.rs`, reduced to its
observable trace: the database-not-open and ongoing-slot failures emit a
single 0; otherwise the step machine runs and the final marker (1000 on
success, 0 otherwise) is emitted after the epilogue.  The store epilogue
itself (restore or snapshot of the raw keys) is modelled separately. -/
def job_configure_imap (env : JobEnv) : JobState :=
  if ! env.sql_open then { initial_job_state env with events := [0] }
  else if ! env.alloc_ok then { initial_job_state env with events := [0] }
  else
    let s := run_steps env JOB_FUEL (initial_job_state env)
    emit s (if s.success then 1000 else 0)

/-- The claim-side branch predicate of step 4: the user supplied an
advanced field.  Per the source this is a server, a port, an SMTP-side
user, or a non-OAuth flag bit — the IMAP-side `mail_user` is deliberately
not part of the test (its check is commented out so that an entered login
name can feed autoconfig). -/
def advanced_params_entered (p : LoginParam) : Bool :=
  ! decide (p.mail_server.isEmpty ∧ p.mail_port = 0 ∧ p.send_server.isEmpty ∧
     p.send_port = 0 ∧ p.send_user.isEmpty ∧
     and32 p.server_flags (not32 DC_LP_AUTH_OAUTH2) = 0)

/-- The environment of the C4 counterexample: the user entered address,
password, and an IMAP-side login name (`mail_user`), nothing else; the
provider database misses, every probe misses, nothing is cancelled. -/
def c4_env : JobEnv :=
  { sql_open := true
    alloc_ok := true
    stop := fun _ => false
    initial_param := { LoginParam.new with
      addr := "someone@b.c", mail_pw := "pw", mail_user := "someone123" }
    oauth2_addr := fun _ _ => none
    parse_domain := fun _ => some "b.c"
    urlencode := fun a => a
    get_provider_info := fun _ => none
    moz := fun _ _ => none
    outlk := fun _ _ => none
    imap_connect := fun _ => false
    smtp_connect := fun _ => false
    folders_ok := true
    select_ok := true
    e2ee_ok := true }

/-- The index of the first successful connection among the next `n`
attempts of an index-consumed connect oracle (`n` if all fail). -/
def first_conn_success (f : Nat → Bool) (start : Nat) : Nat → Nat
  | 0 => 0
  | n + 1 => if f start then 0 else first_conn_success f (start + 1) n + 1

/-- The claim-side trial plan of `try_imap_connections` when autoconfig
did not supply the settings: pass 0 is the current settings, then STARTTLS,
then port 143; pass 1 repeats the three variations after the reset to SSL
on 993 with both user names stripped at `@`. -/
def imap_trial_plan (p : LoginParam) : List LoginParam :=
  let p1 := { p with
    server_flags :=
      or32 (and32 p.server_flags (not32 DC_LP_IMAP_SOCKET_FLAGS))
        DC_LP_IMAP_SOCKET_STARTTLS }
  let p2 := { p1 with mail_port := 143 }
  let q0 := { p2 with
    server_flags :=
      or32 (and32 p2.server_flags (not32 DC_LP_IMAP_SOCKET_FLAGS))
        DC_LP_IMAP_SOCKET_SSL
    mail_port := 993
    mail_user := take_before_at p2.mail_user
    send_user := take_before_at p2.send_user }
  let q1 := { q0 with
    server_flags :=
      or32 (and32 q0.server_flags (not32 DC_LP_IMAP_SOCKET_FLAGS))
        DC_LP_IMAP_SOCKET_STARTTLS }
  let q2 := { q1 with mail_port := 143 }
  [p, p1, p2, q0, q1, q2]

/-- The largest progress value emitted up to and including step `k` on any
path (0 before the first step). -/
def stepBound : Nat → Nat
  | 0 => 0
  | 1 => 1
  | 2 => 20
  | 3 => 20
  | 4 => 200
  | 5 => 200
  | 6 => 300
  | 7 => 310
  | 8 => 320
  | 9 => 330
  | 10 => 340
  | 11 => 350
  | 12 => 500
  | 13 => 500
  | 14 => 699
  | 15 => 860
  | 16 => 900
  | 17 => 910
  | _ => 940

/-- The invariant of the step loop that claim C1 rests on: the events so
far are non-decreasing, within 1..999, and bounded by the last completed
step's band. -/
def evGood (s : JobState) : Prop :=
  s.events.Pairwise (· ≤ ·) ∧
  ∀ x ∈ s.events, 1 ≤ x ∧ x ≤ 999 ∧ x ≤ stepBound s.step_counter

/-- The seven autoconfig probe URLs of spec section 4.1, in source order. -/
def autoconfig_urls (domain enc : String) : List String :=
  ["https://autoconfig." ++ domain ++ "/mail/config-v1.1.xml?emailaddress=" ++ enc,
   "https://" ++ domain ++ "/.well-known/autoconfig/mail/config-v1.1.xml?emailaddress=" ++ enc,
   "https://" ++ domain ++ "/autodiscover/autodiscover.xml",
   "https://" ++ "autodiscover." ++ domain ++ "/autodiscover/autodiscover.xml",
   "http://autoconfig." ++ domain ++ "/mail/config-v1.1.xml?emailaddress=" ++ enc,
   "http://" ++ domain ++ "/.well-known/autoconfig/mail/config-v1.1.xml",
   "https://autoconfig.thunderbird.net/v1.1/" ++ domain]

/-- The answers the environment gives to the seven probes (Mozilla format
for 1, 2, 5, 6, 7; Outlook format for 3, 4). -/
def probe_answers (env : JobEnv) (p : LoginParam) (domain enc : String) :
    List (Option LoginParam) :=
  [env.moz ("https://autoconfig." ++ domain ++ "/mail/config-v1.1.xml?emailaddress=" ++ enc) p,
   env.moz ("https://" ++ domain ++ "/.well-known/autoconfig/mail/config-v1.1.xml?emailaddress=" ++ enc) p,
   env.outlk ("https://" ++ domain ++ "/autodiscover/autodiscover.xml") p,
   env.outlk ("https://" ++ "autodiscover." ++ domain ++ "/autodiscover/autodiscover.xml") p,
   env.moz ("http://autoconfig." ++ domain ++ "/mail/config-v1.1.xml?emailaddress=" ++ enc) p,
   env.moz ("http://" ++ domain ++ "/.well-known/autoconfig/mail/config-v1.1.xml") p,
   env.moz ("https://autoconfig.thunderbird.net/v1.1/" ++ domain) p]

def tick (s : JobState) : JobState :=
  { s with
      step_counter := s.step_counter + 1
      stopIdx := s.stopIdx + 1 }

def c6_env : JobEnv :=
  { sql_open := true
    alloc_ok := true
    stop := fun _ => false
    initial_param := { LoginParam.new with addr := "someone@b.c", mail_pw := "pw" }
    oauth2_addr := fun _ _ => none
    parse_domain := fun _ => some "b.c"
    urlencode := fun a => a
    get_provider_info := fun _ => none
    moz := fun _ _ => none
    outlk := fun _ _ => none
    imap_connect := fun _ => false
    smtp_connect := fun _ => false
    folders_ok := true
    select_ok := true
    e2ee_ok := true }

def c6_state : JobState :=
  { initial_job_state c6_env with step_counter := 4 }

/-- The `config` key/value table of the store, as a partial map. -/
def Store : Type := String → Option String

/-- Modelled from the spec: the twelve `LoginParam` keys persisted in the
config table (section 3 and section 6 of the spec). -/
def lp_keys : List String :=
  ["addr", "mail_server", "mail_user", "mail_pw", "mail_port",
   "imap_certificate_checks", "send_server", "send_user", "send_pw",
   "send_port", "smtp_certificate_checks", "server_flags"]

/-- Modelled from the spec: the default persisted value of a key that is
absent from the store — numeric fields read as 0, text fields as the
empty string. -/
def lp_default (k : String) : String :=
  if k = "mail_port" ∨ k = "send_port" ∨ k = "server_flags" ∨
      k = "imap_certificate_checks" ∨ k = "smtp_certificate_checks" then "0"
  else ""

/-- Modelled from the spec: `LoginParam::from_database` reads each of the
twelve keys under the given key-name prefix, falling back to the default
when the key is absent. -/
def lp_from_database (store : Store) (pfx : String) : String → String :=
  fun k => (store (pfx ++ k)).getD (lp_default k)

/-- Modelled from the spec: `LoginParam::save_to_database` writes every
one of the twelve keys under the given key-name prefix, leaving all
other keys untouched. -/
def lp_save_to_database (v : String → String) (store : Store)
    (pfx : String) : Store :=
  fun key =>
    match lp_keys.find? (fun k => pfx ++ k == key) with
    | some k => some (v k)
    | none => store key

/-- The store epilogue of `job_configure_imap` (`configure/mod.rs`
lines 413-424): on success the primary (unprefixed) keys are saved under
the `configured_raw_` prefix; on failure the keys under `configured_raw_`
are loaded and saved into the primary keys. -/
def configure_epilogue (success : Bool) (store : Store) : Store :=
  if success then
    lp_save_to_database (lp_from_database store "") store "configured_raw_"
  else
    lp_save_to_database (lp_from_database store "configured_raw_") store ""

def c2_store : Store :=
  fun k => if k = "addr" then some "a@b.c" else none

def c4_state : JobState := { initial_job_state c4_env with step_counter := 4 }

def c7_db : SqlDb :=
  { cfg := fun k => if k = "dbversion" then some 49 else none
    schema := []
    has_config_table := true }

def c10_env : ImapConnectEnv := ⟨true, true, true, []⟩

def c10_st : ImapSessionState := ⟨none, 0, 0⟩

def c10_st2 : ImapSessionState := ⟨some SessionKind.Secure, 0, 0⟩

def c10_lp0 : dc_loginparam_t := ⟨some "a@b.c", none, 0, none, none, 0⟩

def c10_lp1 : dc_loginparam_t :=
  ⟨some "a@b.c", some "imap.b.c", 993, some "u", some "pw", 0⟩

theorem classify_attr_eq_getD (res : FolderMeaning) (attr : NameAttribute) :
    classify_attr res attr = (label_verdict attr).getD res := by
  cases attr with
  | Custom label =>
      by_cases h1 : label ∈ special_names
      · simp [classify_attr, label_verdict, h1]
      · by_cases h2 : label = "\\Sent" <;>
          simp [classify_attr, label_verdict, h1, h2,
            show "\\Sent" ∉ special_names by decide]
  | NoInferiors => rfl
  | NoSelect => rfl
  | Marked => rfl
  | Unmarked => rfl

theorem foldl_classify_attr (attrs : List NameAttribute) (res : FolderMeaning) :
    attrs.foldl classify_attr res = (last_verdict attrs).getD res := by
  induction attrs generalizing res with
  | nil => rfl
  | cons a l ih =>
      rw [List.foldl_cons, ih, classify_attr_eq_getD]
      unfold last_verdict
      rw [List.reverse_cons, List.findSome?_append]
      cases h : l.reverse.findSome? label_verdict <;>
        cases hv : label_verdict a <;>
          simp [h, hv, List.findSome?]

theorem label_verdict_ne_unknown (attr : NameAttribute) :
    label_verdict attr ≠ some FolderMeaning.Unknown := by
  cases attr with
  | Custom label =>
      by_cases h1 : label ∈ special_names
      · simp [label_verdict, h1]
      · by_cases h2 : label = "\\Sent" <;>
          simp [label_verdict, h1, h2, show "\\Sent" ∉ special_names by decide]
  | NoInferiors => simp [label_verdict]
  | NoSelect => simp [label_verdict]
  | Marked => simp [label_verdict]
  | Unmarked => simp [label_verdict]

theorem last_verdict_ne_unknown (attrs : List NameAttribute) :
    last_verdict attrs ≠ some FolderMeaning.Unknown := by
  intro h
  obtain ⟨a, _, ha⟩ := List.exists_of_findSome?_eq_some h
  exact label_verdict_ne_unknown a ha

/-- C3 counterexample.  The claim says a folder with an empty attribute set
is still classified by its name, and that a \Spam label forces `Other`
regardless of order.  The code returns `Unknown` for the name "sent" with
no attributes (no name fallback happens), and classifies a folder whose
labels are \Spam followed by \Sent as `SentObjects` (the later label
overwrites the earlier verdict). -/
theorem c3_counterexample :
    get_folder_meaning ⟨"sent", []⟩ = FolderMeaning.Unknown ∧
      get_folder_meaning
          ⟨"x", [NameAttribute.Custom "\\Spam", NameAttribute.Custom "\\Sent"]⟩ =
        FolderMeaning.SentObjects := by
  constructor <;> rfl

/-- C3 (amended): if the attribute set is empty, classification returns
`Unknown` without consulting the name.  Otherwise the labels are scanned in
order and the LAST label that matches wins: a label among \Spam, \Trash,
\Drafts, \Junk casts `Other`, a \Sent label casts `SentObjects`; if no
label casts a verdict, the case-insensitive name match decides (names
"sent", "sent objects", "gesendet" give `SentObjects`, anything else
`Unknown`). -/
theorem c3_folder_classification (f : ImapName) :
    get_folder_meaning f =
      if f.attributes.isEmpty then FolderMeaning.Unknown
      else (last_verdict f.attributes).getD (get_folder_meaning_by_name f) := by
  unfold get_folder_meaning
  split
  · rfl
  · rw [foldl_classify_attr]
    cases h : last_verdict f.attributes with
    | none => simp
    | some v =>
        cases v with
        | Unknown => exact absurd h (last_verdict_ne_unknown f.attributes)
        | SentObjects => simp
        | Other => simp

theorem is_file_in_use_none_iff (files : Finset (List Char)) (name : List Char) :
    is_file_in_use files none name = true ↔ name ∈ files := by
  simp [is_file_in_use]

theorem is_file_in_use_some_iff (files : Finset (List Char))
    (suf name : List Char) :
    is_file_in_use files (some suf) name = true ↔
      suf <:+ name ∧ suf.length < name.length ∧
        name.take (name.length - suf.length) ∈ files := by
  by_cases hle : name.length ≤ suf.length
  · have hz : is_file_in_use files (some suf) name = false := by
      simp [is_file_in_use, hle]
    rw [hz]
    simp only [Bool.false_eq_true, false_iff]
    rintro ⟨-, hlt, -⟩
    omega
  · by_cases hsuf : suf.isSuffixOf name
    · have hs := List.isSuffixOf_iff_suffix.mp hsuf
      have hz : is_file_in_use files (some suf) name =
          decide (name.take (name.length - suf.length) ∈ files) := by
        simp [is_file_in_use, hle, hsuf]
      rw [hz]
      simp [hs, Nat.lt_of_not_le hle]
    · have hz : is_file_in_use files (some suf) name = false := by
        simp [is_file_in_use, hsuf]
      rw [hz]
      simp only [Bool.false_eq_true, false_iff]
      rintro ⟨hs, -, -⟩
      exact hsuf (List.isSuffixOf_iff_suffix.mpr hs)

theorem stat_recent_iff (kt : Nat) (t : Option Nat) :
    stat_recent kt t = true ↔ ∃ tv, t = some tv ∧ kt < tv := by
  cases t <;> simp [stat_recent]

theorem collect_files_mem (vs : List (List Char)) (acc s : Finset (List Char))
    (h : collect_files vs acc = some s) (n : List Char) :
    n ∈ s ↔ n ∈ acc ∨ ∃ v ∈ vs, blobdir_marker.isPrefixOf v ∧ v.drop 9 = n := by
  induction vs generalizing acc with
  | nil =>
      simp only [collect_files, Option.some_inj] at h
      simp [← h]
  | cons v vs ih =>
      simp only [collect_files] at h
      by_cases hpre : blobdir_marker.isPrefixOf v
      · by_cases hlen : v.length < 9
        · simp [maybe_add_file, hpre, hlen] at h
        · simp only [maybe_add_file, hpre, hlen, not_true, if_neg, if_false,
            not_false_iff, if_true, ite_not] at h
          rw [ih _ h]
          simp only [Finset.mem_insert, List.mem_cons]
          constructor
          · rintro (⟨h1 | h1⟩ | ⟨w, hw, hw2⟩)
            · exact Or.inr ⟨v, Or.inl rfl, hpre, h1.symm⟩
            · exact Or.inl h1
            · exact Or.inr ⟨w, Or.inr hw, hw2⟩
          · rintro (h1 | ⟨w, hw | hw, hw2, hw3⟩)
            · exact Or.inl (Or.inr h1)
            · exact Or.inl (Or.inl (hw ▸ hw3.symm))
            · exact Or.inr ⟨w, hw, hw2, hw3⟩
      · simp only [maybe_add_file, hpre, not_false_iff, if_true] at h
        rw [ih _ h]
        simp only [List.mem_cons]
        constructor
        · rintro (h1 | ⟨w, hw, hw2⟩)
          · exact Or.inl h1
          · exact Or.inr ⟨w, Or.inr hw, hw2⟩
        · rintro (h1 | ⟨w, hw | hw, hw2, hw3⟩)
          · exact Or.inl h1
          · exact absurd (hw ▸ hw2) hpre
          · exact Or.inr ⟨w, hw, hw2, hw3⟩

theorem referenced_iff_in_use (files : Finset (List Char)) (name : List Char) :
    (is_file_in_use files none name
      || is_file_in_use files (some ".increation".data) name
      || is_file_in_use files (some ".waveform".data) name
      || is_file_in_use files (some "-preview.jpg".data) name) = true ↔
      referenced_in files name := by
  simp only [Bool.or_eq_true, is_file_in_use_none_iff, is_file_in_use_some_iff,
    referenced_in, variant_suffixes]
  constructor
  · rintro (((h | h) | h) | h)
    · exact Or.inl h
    · exact Or.inr ⟨".increation".data, by simp, h⟩
    · exact Or.inr ⟨".waveform".data, by simp, h⟩
    · exact Or.inr ⟨"-preview.jpg".data, by simp, h⟩
  · rintro (h | ⟨suf, hsuf, h⟩)
    · exact Or.inl (Or.inl (Or.inl h))
    · simp only [List.mem_cons, List.not_mem_nil, or_false] at hsuf
      rcases hsuf with rfl | rfl | rfl
      · exact Or.inl (Or.inl (Or.inr h))
      · exact Or.inl (Or.inr h)
      · exact Or.inr h

theorem recently_touched_iff (kt : Nat) (entry : DirEntry) (st : FileStats)
    (h : entry.stats = some st) :
    recently_touched kt entry ↔
      (stat_recent kt st.created || stat_recent kt st.modified
        || stat_recent kt st.accessed) = true := by
  simp only [recently_touched, h, Option.some_inj, stat_recent_iff,
    Bool.or_eq_true]
  constructor
  · rintro ⟨st2, rfl, hx⟩
    exact or_assoc.mpr hx
  · intro hx
    exact ⟨st, rfl, or_assoc.mp hx⟩

/-- C8: the directory walk of `housekeeping` deletes a file exactly when
the file is not referenced (neither under its own name nor after stripping
a properly-present variant suffix `.increation`, `.waveform` or
`-preview.jpg`) and not created, modified or accessed within the last hour;
equivalently, every referenced or sufficiently young file is kept.  The
referenced set is what `maybe_add_file` collects over the candidate strings
of the scanned rows: when the collection does not panic it holds exactly
the `$BLOBDIR`-prefixed strings with the nine leading bytes removed. -/
theorem c8_housekeeping_keeps_referenced_and_young
    (files : Finset (List Char)) (kt : Nat) (entry : DirEntry) :
    (housekeeping_deletes files kt entry = true ↔
      ¬ referenced_in files entry.name ∧ ¬ recently_touched kt entry) ∧
    ∀ vs s, collect_files vs ∅ = some s →
      ∀ n, n ∈ s ↔ ∃ v ∈ vs, blobdir_marker.isPrefixOf v ∧ v.drop 9 = n := by
  constructor
  · unfold housekeeping_deletes
    by_cases hc : (is_file_in_use files none entry.name
        || is_file_in_use files (some ".increation".data) entry.name
        || is_file_in_use files (some ".waveform".data) entry.name
        || is_file_in_use files (some "-preview.jpg".data) entry.name) = true
    · simp only [hc, if_true]
      simp [(referenced_iff_in_use files entry.name).mp hc]
    · have href : ¬ referenced_in files entry.name := fun h =>
        hc ((referenced_iff_in_use files entry.name).mpr h)
      simp only [hc, if_false]
      cases hstats : entry.stats with
      | none =>
          have hnt : ¬ recently_touched kt entry := by
            rintro ⟨st, hst, -⟩
            rw [hstats] at hst
            cases hst
          simp [href, hnt]
      | some st =>
          by_cases hr : (stat_recent kt st.created || stat_recent kt st.modified
              || stat_recent kt st.accessed) = true
          · simp only [hr, if_true]
            simp [href, (recently_touched_iff kt entry st hstats).mpr hr]
          · simp only [hr, if_false]
            have hnt : ¬ recently_touched kt entry :=
              fun h2 => hr ((recently_touched_iff kt entry st hstats).mp h2)
            simp [href, hnt]
  · intro vs s h n
    rw [collect_files_mem vs ∅ s h n]
    simp

/-- C9: `maybe_add_file` is not total on its stated input space.  On
exactly the eight characters of the marker itself the slice at index 9 is
out of bounds and the function panics (modelled `none`); on any input that
does not start with the marker it returns the set unchanged; and on the
marker followed by a separator and a name it inserts the name, i.e. the
input with the nine leading bytes removed. -/
theorem c9_maybe_add_file_partiality :
    (∀ s, maybe_add_file s "$BLOBDIR".data = none) ∧
    (∀ s file, ¬ blobdir_marker.isPrefixOf file → maybe_add_file s file = some s) ∧
    (∀ s name,
      maybe_add_file s ("$BLOBDIR/".data ++ name) = some (insert name s)) := by
  refine ⟨fun s => ?_, fun s file h => ?_, fun s name => ?_⟩
  · rfl
  · simp [maybe_add_file, h]
  · have hdata : "$BLOBDIR/".data ++ name = blobdir_marker ++ ([Char.ofNat 47] ++ name) := by
      simp [blobdir_marker]
    have hpre : blobdir_marker.isPrefixOf ("$BLOBDIR/".data ++ name) = true := by
      rw [hdata]
      exact List.isPrefixOf_iff_prefix.mpr ⟨[Char.ofNat 47] ++ name, rfl⟩
    have hlen : ¬ ("$BLOBDIR/".data ++ name).length < 9 := by
      simp [List.length_append]
    have hdrop : ("$BLOBDIR/".data ++ name).drop 9 = name := by
      have h9 : ("$BLOBDIR/".data).length = 9 := by decide
      rw [← h9, List.drop_left]
    unfold maybe_add_file
    rw [hpre, hdrop]
    simp [hlen]

/-- C10: with a session already present, `connect` returns 1 at once for
any non-null parameter block whose `mail_server`, `mail_user` and
`mail_pw` are non-null, leaving the session and the recorded capabilities
unchanged; and it returns 0 with no state change whenever the block is
null or one of those three fields is null (this null check precedes even
the already-connected test). -/
theorem c10_connect_early_paths (env : ImapConnectEnv)
    (st : ImapSessionState) (lp : dc_loginparam_t) :
    dc_imap_connect env st none = (0, st) ∧
    ((lp.mail_server = none ∨ lp.mail_user = none ∨ lp.mail_pw = none) →
      dc_imap_connect env st (some lp) = (0, st)) ∧
    (st.session.isSome →
      lp.mail_server ≠ none → lp.mail_user ≠ none → lp.mail_pw ≠ none →
      dc_imap_connect env st (some lp) = (1, st)) := by
  refine ⟨rfl, fun h => ?_, fun hs h1 h2 h3 => ?_⟩
  · simp [dc_imap_connect, h]
  · simp [dc_imap_connect, h1, h2, h3, hs]

/-- C7: opening an existing read-write store whose stored `dbversion` is 49
runs every remaining migration: afterwards `dbversion` is 63, `show_emails`
is `ALL` (because the database existed before the update), `bcc_self` is 1
given that it had no value before, and the executed statements are exactly
the v53 through v63 DDL/DML in order. -/
theorem c7_migration_from_v49 (db : SqlDb)
    (htable : db.has_config_table = true)
    (hdbv : db.cfg "dbversion" = some 49)
    (hbcc : db.cfg "bcc_self" = none) :
    (sql_open_rw db).db.cfg "dbversion" = some 63 ∧
    (sql_open_rw db).db.cfg "show_emails" = some SHOW_EMAILS_ALL ∧
    (sql_open_rw db).db.cfg "bcc_self" = some 1 ∧
    (sql_open_rw db).db.schema = db.schema ++ post49_stmts := by
  unfold sql_open_rw
  simp only [htable, not_true, if_neg, if_false, ite_false, Bool.not_true,
    not_false_iff, hdbv, Option.getD_some]
  unfold run_migrations
  unfold migration_v1 migration_v2 migration_v7 migration_v10 migration_v12
    migration_v17 migration_v18 migration_v27 migration_v34 migration_v39
    migration_v40 migration_v44 migration_v46 migration_v47 migration_v48
    migration_v49
  norm_num
  unfold migration_v50 migration_v53 migration_v54 migration_v55
    migration_v59 migration_v60 migration_v61 migration_v62 migration_v63
  simp only [mig_set_int, mig_exec]
  simp [hbcc, post49_stmts, String.reduceEq]

@[simp] theorem emit_param (s : JobState) (n : Nat) : (emit s n).param = s.param := rfl

@[simp] theorem emit_param_autoconfig (s : JobState) (n : Nat) :
    (emit s n).param_autoconfig = s.param_autoconfig := rfl

@[simp] theorem emit_param_domain (s : JobState) (n : Nat) :
    (emit s n).param_domain = s.param_domain := rfl

@[simp] theorem emit_param_addr_urlencoded (s : JobState) (n : Nat) :
    (emit s n).param_addr_urlencoded = s.param_addr_urlencoded := rfl

@[simp] theorem emit_keep_flags (s : JobState) (n : Nat) :
    (emit s n).keep_flags = s.keep_flags := rfl

@[simp] theorem emit_step_counter (s : JobState) (n : Nat) :
    (emit s n).step_counter = s.step_counter := rfl

@[simp] theorem emit_success (s : JobState) (n : Nat) :
    (emit s n).success = s.success := rfl

@[simp] theorem emit_stopIdx (s : JobState) (n : Nat) :
    (emit s n).stopIdx = s.stopIdx := rfl

@[simp] theorem emit_imapIdx (s : JobState) (n : Nat) :
    (emit s n).imapIdx = s.imapIdx := rfl

@[simp] theorem emit_smtpIdx (s : JobState) (n : Nat) :
    (emit s n).smtpIdx = s.smtpIdx := rfl

@[simp] theorem emit_probed (s : JobState) (n : Nat) : (emit s n).probed = s.probed := rfl

@[simp] theorem emit_imap_attempts (s : JobState) (n : Nat) :
    (emit s n).imap_attempts = s.imap_attempts := rfl

@[simp] theorem emit_smtp_attempts (s : JobState) (n : Nat) :
    (emit s n).smtp_attempts = s.smtp_attempts := rfl

@[simp] theorem emit_events (s : JobState) (n : Nat) :
    (emit s n).events = s.events ++ [n] := rfl

@[simp] theorem emit_imap_connected_here (s : JobState) (n : Nat) :
    (emit s n).imap_connected_here = s.imap_connected_here := rfl

@[simp] theorem emit_smtp_connected_here (s : JobState) (n : Nat) :
    (emit s n).smtp_connected_here = s.smtp_connected_here := rfl

/-- C4 (amended): step 4 skips the provider-database lookup and every
autoconfig probe, jumping to the default-fill step, exactly when a server,
a port, an SMTP-side user or a non-OAuth flag bit was supplied — the
IMAP-side user does not influence the branch (first conjunct); when it
jumps, the step does nothing but emit 200 and set the counter to 12 (so
step 13 runs next); in the non-advanced branch the OAuth bit is saved and
the provider database decides between the jump to step 12 (counter 11,
configuration adopted) and falling through to the probes (counter
unchanged). -/
theorem c4_advanced_skip (env : JobEnv) (s : JobState)
    (h4 : s.step_counter = 4) :
    (∀ u, advanced_params_entered { s.param with mail_user := u } =
        advanced_params_entered s.param) ∧
    (advanced_params_entered s.param = true →
      do_step env s =
        (StepOutcome.next true, { emit s 200 with step_counter := 12 })) ∧
    (advanced_params_entered s.param = false →
      (do_step env s).2.keep_flags =
          and32 s.param.server_flags DC_LP_AUTH_OAUTH2 ∧
      ((do_step env s).2.step_counter, (do_step env s).2.param_autoconfig,
          (do_step env s).2.probed) =
        match get_offline_autoconfig env.get_provider_info s.param with
        | some np => (11, some np, s.probed)
        | none => (4, s.param_autoconfig, s.probed)) := by
  refine ⟨fun u => rfl, fun hadv => ?_, fun hnadv => ?_⟩
  · have hcond : ¬ (s.param.mail_server.isEmpty ∧ s.param.mail_port = 0 ∧
        s.param.send_server.isEmpty ∧ s.param.send_port = 0 ∧
        s.param.send_user.isEmpty ∧
        and32 s.param.server_flags (not32 DC_LP_AUTH_OAUTH2) = 0) := by
      simp only [advanced_params_entered, Bool.not_eq_true',
        decide_eq_false_iff_not] at hadv
      exact hadv
    simp only [do_step, h4, emit_param]
    rw [if_neg hcond]
  · have hcond : (s.param.mail_server.isEmpty ∧ s.param.mail_port = 0 ∧
        s.param.send_server.isEmpty ∧ s.param.send_port = 0 ∧
        s.param.send_user.isEmpty ∧
        and32 s.param.server_flags (not32 DC_LP_AUTH_OAUTH2) = 0) := by
      simp only [advanced_params_entered, Bool.not_eq_false',
        decide_eq_true_eq] at hnadv
      exact hnadv
    simp only [do_step, h4, emit_param]
    rw [if_pos hcond]
    cases hoff : get_offline_autoconfig env.get_provider_info s.param <;>
      simp [hoff, h4]

/-- C4 counterexample.  The claim says any advanced field — including a
non-default user on the IMAP side — makes the pipeline skip autoconfig and
jump to default-fill.  With only `mail_user = "someone123"` supplied the
run still issues all seven probe URLs: the source deliberately leaves
`mail_user` out of the step-4 test. -/
theorem c4_counterexample :
    c4_env.initial_param.mail_user = "someone123" ∧
    c4_env.initial_param.mail_server = "" ∧ c4_env.initial_param.mail_port = 0 ∧
    c4_env.initial_param.send_server = "" ∧ c4_env.initial_param.send_port = 0 ∧
    c4_env.initial_param.send_user = "" ∧ c4_env.initial_param.server_flags = 0 ∧
    (job_configure_imap c4_env).probed ≠ [] := by
  refine ⟨rfl, rfl, rfl, rfl, rfl, rfl, rfl, ?_⟩
  decide

/-- C5: in an uncancelled run, when autoconfig supplied the settings the
IMAP trial makes exactly one connection attempt, with the current
settings; otherwise the attempts follow `imap_trial_plan` — pass 0 with
the current settings, STARTTLS, port 143; between the passes SSL on 993 is
restored and both user names lose their `@domain` part; the strategy stops
at the first success, succeeds exactly when some of the six variants
connects, and never makes a seventh attempt. -/
theorem c5_imap_trial_strategy (env : JobEnv) (s : JobState) (auto : Bool)
    (hstop : ∀ n, env.stop n = false) :
    (auto = true →
      (try_imap_connections env s auto).2.imap_attempts =
          s.imap_attempts ++ [s.param] ∧
      (try_imap_connections env s auto).1 = env.imap_connect s.imapIdx) ∧
    (auto = false →
      (try_imap_connections env s auto).2.imap_attempts =
        s.imap_attempts ++ (imap_trial_plan s.param).take
          (first_conn_success env.imap_connect s.imapIdx 6 + 1) ∧
      ((try_imap_connections env s auto).1 = true ↔
        first_conn_success env.imap_connect s.imapIdx 6 < 6)) := by
  constructor
  · rintro rfl
    by_cases c0 : env.imap_connect s.imapIdx <;>
      simp [try_imap_connections, try_imap_connection, try_imap_one_param,
        poll_stop, c0, hstop]
  · rintro rfl
    by_cases c0 : env.imap_connect s.imapIdx
    · simp [try_imap_connections, try_imap_connection, try_imap_one_param,
        poll_stop, c0, hstop, first_conn_success, imap_trial_plan]
    · by_cases c1 : env.imap_connect (s.imapIdx + 1)
      · simp [try_imap_connections, try_imap_connection, try_imap_one_param,
          poll_stop, c0, c1, hstop, first_conn_success, imap_trial_plan]
      · by_cases c2 : env.imap_connect (s.imapIdx + 1 + 1)
        · simp [try_imap_connections, try_imap_connection, try_imap_one_param,
            poll_stop, c0, c1, c2, hstop, first_conn_success, imap_trial_plan]
        · by_cases c3 : env.imap_connect (s.imapIdx + 1 + 1 + 1)
          · simp [try_imap_connections, try_imap_connection, try_imap_one_param,
              poll_stop, c0, c1, c2, c3, hstop, first_conn_success,
              imap_trial_plan]
          · by_cases c4 : env.imap_connect (s.imapIdx + 1 + 1 + 1 + 1)
            · simp [try_imap_connections, try_imap_connection,
                try_imap_one_param, poll_stop, c0, c1, c2, c3, c4, hstop,
                first_conn_success, imap_trial_plan]
            · by_cases c5 : env.imap_connect (s.imapIdx + 1 + 1 + 1 + 1 + 1)
              · simp [try_imap_connections, try_imap_connection,
                  try_imap_one_param, poll_stop, c0, c1, c2, c3, c4, c5, hstop,
                  first_conn_success, imap_trial_plan]
              · simp [try_imap_connections, try_imap_connection,
                  try_imap_one_param, poll_stop, c0, c1, c2, c3, c4, c5, hstop,
                  first_conn_success, imap_trial_plan]

theorem try_imap_one_param_state (env : JobEnv) (s : JobState)
    (o : Option Bool) (s' : JobState)
    (h : try_imap_one_param env s = (o, s')) :
    s'.probed = s.probed ∧ s'.param_autoconfig = s.param_autoconfig ∧
    s'.step_counter = s.step_counter ∧ s'.events = s.events ∧
    s'.success = s.success := by
  by_cases c : env.imap_connect s.imapIdx <;>
    by_cases st : env.stop s.stopIdx <;>
      · simp [try_imap_one_param, poll_stop, c, st, Prod.mk.injEq] at h
        obtain ⟨-, hs⟩ := h
        subst hs
        simp

theorem try_smtp_one_param_state (env : JobEnv) (s : JobState)
    (o : Option Bool) (s' : JobState)
    (h : try_smtp_one_param env s = (o, s')) :
    s'.probed = s.probed ∧ s'.param_autoconfig = s.param_autoconfig ∧
    s'.step_counter = s.step_counter ∧ s'.events = s.events ∧
    s'.success = s.success := by
  by_cases c : env.smtp_connect s.smtpIdx <;>
    by_cases st : env.stop s.stopIdx <;>
      · simp [try_smtp_one_param, poll_stop, c, st, Prod.mk.injEq] at h
        obtain ⟨-, hs⟩ := h
        subst hs
        simp

theorem try_imap_connection_state (env : JobEnv) (s : JobState)
    (auto : Bool) (v : Nat) (o : Option Bool) (s' : JobState)
    (h : try_imap_connection env s auto v = (o, s')) :
    s'.probed = s.probed ∧ s'.param_autoconfig = s.param_autoconfig ∧
    s'.step_counter = s.step_counter ∧ s'.success = s.success ∧
    ∃ blk, s'.events = s.events ++ blk ∧
      blk ∈ [([] : List Nat), [650 + v * 30], [650 + v * 30, 660 + v * 30]] := by
  unfold try_imap_connection at h
  split at h
  · rename_i o0 s1 res heq
    obtain ⟨hp, ha, hc, he, hsu⟩ := try_imap_one_param_state env s _ _ heq
    obtain ⟨rfl, rfl⟩ := Prod.mk.injEq .. |>.mp h
    exact ⟨hp, ha, hc, hsu, [], by simp [he], by simp⟩
  · rename_i o0 s1 heq
    obtain ⟨hp1, ha1, hc1, he1, hsu1⟩ := try_imap_one_param_state env s _ _ heq
    by_cases hauto : auto
    · rw [if_pos hauto] at h
      obtain ⟨rfl, rfl⟩ := Prod.mk.injEq .. |>.mp h
      exact ⟨hp1, ha1, hc1, hsu1, [], by simp [he1], by simp⟩
    · rw [if_neg hauto] at h
      dsimp only at h
      split at h
      · rename_i o2 s2 res heq2
        obtain ⟨hp2, ha2, hc2, he2, hsu2⟩ := try_imap_one_param_state env _ _ _ heq2
        obtain ⟨rfl, rfl⟩ := Prod.mk.injEq .. |>.mp h
        refine ⟨by simpa [hp1] using hp2, by simpa [ha1] using ha2,
          by simpa [hc1] using hc2, by simpa [hsu1] using hsu2,
          [650 + v * 30], ?_, by simp⟩
        rw [he2]
        simp [he1]
      · rename_i o2 s2 heq2
        obtain ⟨hp2, ha2, hc2, he2, hsu2⟩ := try_imap_one_param_state env _ _ _ heq2
        obtain ⟨hp3, ha3, hc3, he3, hsu3⟩ := try_imap_one_param_state env _ _ _ h
        refine ⟨by simp [hp3, hp2, hp1], by simp [ha3, ha2, ha1],
          by simp [hc3, hc2, hc1], by simp [hsu3, hsu2, hsu1],
          [650 + v * 30, 660 + v * 30], ?_, by simp⟩
        rw [he3]
        simp [he2, he1]

theorem try_imap_connections_state (env : JobEnv) (s : JobState)
    (auto : Bool) (res : Bool) (s' : JobState)
    (h : try_imap_connections env s auto = (res, s')) :
    s'.probed = s.probed ∧ s'.param_autoconfig = s.param_autoconfig ∧
    s'.step_counter = s.step_counter ∧ s'.success = s.success ∧
    ∃ blk, s'.events = s.events ++ blk ∧ blk.Pairwise (· ≤ ·) ∧
      ∀ x ∈ blk, 650 ≤ x ∧ x ≤ 690 := by
  unfold try_imap_connections at h
  split at h
  · rename_i o0 s1 r0 heq
    obtain ⟨hp, ha, hc, hsu, blk, he, hblk⟩ :=
      try_imap_connection_state env s auto 0 _ _ heq
    obtain ⟨rfl, rfl⟩ := Prod.mk.injEq .. |>.mp h
    refine ⟨hp, ha, hc, hsu, blk, he, ?_, ?_⟩ <;>
      · fin_cases hblk <;> simp_all
  · rename_i o0 s1 heq
    obtain ⟨hp1, ha1, hc1, hsu1, blk0, he1, hblk0⟩ :=
      try_imap_connection_state env s auto 0 _ _ heq
    dsimp only at h
    split at h
    · rename_i o2 s2 r2 heq2
      obtain ⟨hp2, ha2, hc2, hsu2, blk1, he2, hblk1⟩ :=
        try_imap_connection_state env _ auto 1 _ _ heq2
      obtain ⟨rfl, rfl⟩ := Prod.mk.injEq .. |>.mp h
      refine ⟨by simp_all, by simp_all, by simp_all, by simp_all,
        blk0 ++ ([670] ++ blk1), ?_, ?_, ?_⟩
      · rw [he2]
        simp [he1]
      · fin_cases hblk0 <;> fin_cases hblk1 <;> simp_all
      · fin_cases hblk0 <;> fin_cases hblk1 <;> simp_all
    · rename_i o2 s2 heq2
      obtain ⟨hp2, ha2, hc2, hsu2, blk1, he2, hblk1⟩ :=
        try_imap_connection_state env _ auto 1 _ _ heq2
      obtain ⟨rfl, rfl⟩ := Prod.mk.injEq .. |>.mp h
      refine ⟨by simp_all, by simp_all, by simp_all, by simp_all,
        blk0 ++ ([670] ++ blk1), ?_, ?_, ?_⟩
      · rw [he2]
        simp [he1]
      · fin_cases hblk0 <;> fin_cases hblk1 <;> simp_all
      · fin_cases hblk0 <;> fin_cases hblk1 <;> simp_all

theorem try_smtp_connections_state (env : JobEnv) (s : JobState)
    (auto : Bool) (res : Bool) (s' : JobState)
    (h : try_smtp_connections env s auto = (res, s')) :
    s'.probed = s.probed ∧ s'.param_autoconfig = s.param_autoconfig ∧
    s'.step_counter = s.step_counter ∧ s'.success = s.success ∧
    ∃ blk, s'.events = s.events ++ blk ∧ blk.Pairwise (· ≤ ·) ∧
      ∀ x ∈ blk, 850 ≤ x ∧ x ≤ 860 := by
  unfold try_smtp_connections at h
  split at h
  · rename_i o0 s1 r0 heq
    obtain ⟨hp, ha, hc, he, hsu⟩ := try_smtp_one_param_state env s _ _ heq
    obtain ⟨rfl, rfl⟩ := Prod.mk.injEq .. |>.mp h
    exact ⟨hp, ha, hc, hsu, [], by simp [he], by simp, by simp⟩
  · rename_i o0 s1 heq
    obtain ⟨hp1, ha1, hc1, he1, hsu1⟩ := try_smtp_one_param_state env s _ _ heq
    by_cases hauto : auto
    · rw [if_pos hauto] at h
      obtain ⟨rfl, rfl⟩ := Prod.mk.injEq .. |>.mp h
      exact ⟨hp1, ha1, hc1, hsu1, [], by simp [he1], by simp, by simp⟩
    · rw [if_neg hauto] at h
      dsimp only at h
      split at h
      · rename_i o2 s2 r2 heq2
        obtain ⟨hp2, ha2, hc2, he2, hsu2⟩ := try_smtp_one_param_state env _ _ _ heq2
        obtain ⟨rfl, rfl⟩ := Prod.mk.injEq .. |>.mp h
        refine ⟨by simp_all, by simp_all, by simp_all, by simp_all,
          [850], ?_, by simp, by simp⟩
        rw [he2]
        simp [he1]
      · rename_i o2 s2 heq2
        obtain ⟨hp2, ha2, hc2, he2, hsu2⟩ := try_smtp_one_param_state env _ _ _ heq2
        split at h
        · rename_i o3 s3 r3 heq3
          obtain ⟨hp3, ha3, hc3, he3, hsu3⟩ :=
            try_smtp_one_param_state env _ _ _ heq3
          obtain ⟨rfl, rfl⟩ := Prod.mk.injEq .. |>.mp h
          refine ⟨by simp_all, by simp_all, by simp_all, by simp_all,
            [850, 860], ?_, by simp, by simp⟩
          rw [he3]
          simp [he2, he1]
        · rename_i o3 s3 heq3
          obtain ⟨hp3, ha3, hc3, he3, hsu3⟩ :=
            try_smtp_one_param_state env _ _ _ heq3
          obtain ⟨rfl, rfl⟩ := Prod.mk.injEq .. |>.mp h
          refine ⟨by simp_all, by simp_all, by simp_all, by simp_all,
            [850, 860], ?_, by simp, by simp⟩
          rw [he3]
          simp [he2, he1]

theorem stepBound_mono : Monotone stepBound := by
  apply monotone_nat_of_le_succ
  intro n
  match n with
  | 0 => decide
  | 1 => decide
  | 2 => decide
  | 3 => decide
  | 4 => decide
  | 5 => decide
  | 6 => decide
  | 7 => decide
  | 8 => decide
  | 9 => decide
  | 10 => decide
  | 11 => decide
  | 12 => decide
  | 13 => decide
  | 14 => decide
  | 15 => decide
  | 16 => decide
  | 17 => decide
  | n + 18 => exact Nat.le_refl _

@[simp] theorem probe_step_events (s : JobState) (url : String)
    (ans : Option LoginParam) : (probe_step s url ans).events = s.events := by
  unfold probe_step
  split <;> rfl

@[simp] theorem probe_step_step_counter (s : JobState) (url : String)
    (ans : Option LoginParam) :
    (probe_step s url ans).step_counter = s.step_counter := by
  unfold probe_step
  split <;> rfl

@[simp] theorem probe_step_success (s : JobState) (url : String)
    (ans : Option LoginParam) : (probe_step s url ans).success = s.success := by
  unfold probe_step
  split <;> rfl

theorem do_step_events (env : JobEnv) (s : JobState) (out : StepOutcome)
    (s' : JobState) (h : do_step env s = (out, s')) :
    s.step_counter ≤ s'.step_counter ∧
    ∃ blk, s'.events = s.events ++ blk ∧ blk.Pairwise (· ≤ ·) ∧
      ∀ x ∈ blk, stepBound (s.step_counter - 1) ≤ x ∧ 1 ≤ x ∧ x ≤ 999 ∧
        x ≤ stepBound s.step_counter := by
  unfold do_step at h
  split at h
  · -- step 1
    rename_i hk
    obtain ⟨rfl, rfl⟩ := Prod.mk.injEq .. |>.mp h
    exact ⟨by simp, [1], by simp [emit], by simp, by simp [hk, stepBound]⟩
  · -- step 2
    rename_i hk
    by_cases hoa : and32 s.param.server_flags DC_LP_AUTH_OAUTH2 ≠ 0
    · rw [if_pos hoa] at h
      dsimp only at h
      simp only [emit_param] at h
      cases hor : env.oauth2_addr s.param.addr s.param.mail_pw <;>
        · rw [hor] at h
          obtain ⟨rfl, rfl⟩ := Prod.mk.injEq .. |>.mp h
          refine ⟨by simp, [10, 20], by simp [emit], by simp, ?_⟩
          intro x hx
          rw [hk]
          fin_cases hx <;> decide
    · rw [if_neg hoa] at h
      obtain ⟨rfl, rfl⟩ := Prod.mk.injEq .. |>.mp h
      exact ⟨by simp, [], by simp, by simp, by simp⟩
  · -- step 3
    rename_i hk
    cases hd : env.parse_domain s.param.addr <;>
      · rw [hd] at h
        obtain ⟨rfl, rfl⟩ := Prod.mk.injEq .. |>.mp h
        exact ⟨by simp, [], by simp, by simp, by simp⟩
  · -- step 4
    rename_i hk
    dsimp only at h
    simp only [emit_param] at h
    by_cases hc : (s.param.mail_server.isEmpty ∧ s.param.mail_port = 0 ∧
        s.param.send_server.isEmpty ∧ s.param.send_port = 0 ∧
        s.param.send_user.isEmpty ∧
        and32 s.param.server_flags (not32 DC_LP_AUTH_OAUTH2) = 0)
    · rw [if_pos hc] at h
      cases hoff : get_offline_autoconfig env.get_provider_info s.param <;>
        · rw [hoff] at h
          obtain ⟨rfl, rfl⟩ := Prod.mk.injEq .. |>.mp h
          refine ⟨by simp [hk], [200], by simp [emit], by simp, ?_⟩
          intro x hx
          rw [hk]
          fin_cases hx <;> decide
    · rw [if_neg hc] at h
      obtain ⟨rfl, rfl⟩ := Prod.mk.injEq .. |>.mp h
      refine ⟨by simp [hk], [200], by simp [emit], by simp, ?_⟩
      intro x hx
      rw [hk]
      fin_cases hx <;> decide
  · -- step 5
    rename_i hk
    obtain ⟨rfl, rfl⟩ := Prod.mk.injEq .. |>.mp h
    exact ⟨by simp, [], by simp, by simp, by simp⟩
  · -- step 6
    rename_i hk
    obtain ⟨rfl, rfl⟩ := Prod.mk.injEq .. |>.mp h
    refine ⟨by simp, [300], by simp [emit], by simp, ?_⟩
    intro x hx
    rw [hk]
    fin_cases hx <;> decide
  · -- step 7
    rename_i hk
    obtain ⟨rfl, rfl⟩ := Prod.mk.injEq .. |>.mp h
    refine ⟨by simp, [310], by simp [emit], by simp, ?_⟩
    intro x hx
    rw [hk]
    fin_cases hx <;> decide
  · -- step 8
    rename_i hk
    obtain ⟨rfl, rfl⟩ := Prod.mk.injEq .. |>.mp h
    refine ⟨by simp, [320], by simp [emit], by simp, ?_⟩
    intro x hx
    rw [hk]
    fin_cases hx <;> decide
  · -- step 9
    rename_i hk
    obtain ⟨rfl, rfl⟩ := Prod.mk.injEq .. |>.mp h
    refine ⟨by simp, [330], by simp [emit], by simp, ?_⟩
    intro x hx
    rw [hk]
    fin_cases hx <;> decide
  · -- step 10
    rename_i hk
    obtain ⟨rfl, rfl⟩ := Prod.mk.injEq .. |>.mp h
    refine ⟨by simp, [340], by simp [emit], by simp, ?_⟩
    intro x hx
    rw [hk]
    fin_cases hx <;> decide
  · -- step 11
    rename_i hk
    obtain ⟨rfl, rfl⟩ := Prod.mk.injEq .. |>.mp h
    refine ⟨by simp, [350], by simp [emit], by simp, ?_⟩
    intro x hx
    rw [hk]
    fin_cases hx <;> decide
  · -- step 12
    rename_i hk
    obtain ⟨rfl, rfl⟩ := Prod.mk.injEq .. |>.mp h
    cases hac : s.param_autoconfig with
    | none =>
        refine ⟨by simp [hac], [500], by simp [emit, hac], by simp, ?_⟩
        intro x hx
        rw [hk]
        fin_cases hx <;> decide
    | some cfg =>
        by_cases hu : (! cfg.mail_user.isEmpty) = true
        · refine ⟨by simp [hac, hu], [500], by simp [emit, hac, hu], by simp, ?_⟩
          intro x hx
          rw [hk]
          fin_cases hx <;> decide
        · refine ⟨by simp [hac, hu], [500], by simp [emit, hac, hu], by simp, ?_⟩
          intro x hx
          rw [hk]
          fin_cases hx <;> decide
  · -- step 13
    rename_i hk
    obtain ⟨rfl, rfl⟩ := Prod.mk.injEq .. |>.mp h
    exact ⟨by simp, [], by simp, by simp, by simp⟩
  · -- step 14
    rename_i hk
    dsimp only at h
    have hr : try_imap_connections env (emit s 600)
        ((emit s 600).param_autoconfig.isSome) =
        ((try_imap_connections env (emit s 600)
            ((emit s 600).param_autoconfig.isSome)).1,
         (try_imap_connections env (emit s 600)
            ((emit s 600).param_autoconfig.isSome)).2) := rfl
    obtain ⟨hp, ha, hc, hsu, blk, he, hpw, hbd⟩ :=
      try_imap_connections_state env (emit s 600)
        ((emit s 600).param_autoconfig.isSome) _ _ hr
    obtain ⟨rfl, rfl⟩ := Prod.mk.injEq .. |>.mp h
    refine ⟨by dsimp only; rw [hc]; simp, 600 :: blk, ?_, ?_, ?_⟩
    · dsimp only
      rw [he]
      simp [emit]
    · refine List.Pairwise.cons ?_ hpw
      intro x hx
      have := hbd x hx
      omega
    · intro x hx
      rw [hk]
      rcases List.mem_cons.mp hx with rfl | hx
      · decide
      · have := hbd x hx
        have h500 : stepBound (14 - 1) = 500 := rfl
        have h699 : stepBound 14 = 699 := rfl
        refine ⟨?_, ?_, ?_, ?_⟩ <;> omega
  · -- step 15
    rename_i hk
    dsimp only at h
    have hr : try_smtp_connections env (emit s 800)
        ((emit s 800).param_autoconfig.isSome) =
        ((try_smtp_connections env (emit s 800)
            ((emit s 800).param_autoconfig.isSome)).1,
         (try_smtp_connections env (emit s 800)
            ((emit s 800).param_autoconfig.isSome)).2) := rfl
    obtain ⟨hp, ha, hc, hsu, blk, he, hpw, hbd⟩ :=
      try_smtp_connections_state env (emit s 800)
        ((emit s 800).param_autoconfig.isSome) _ _ hr
    obtain ⟨rfl, rfl⟩ := Prod.mk.injEq .. |>.mp h
    refine ⟨by dsimp only; rw [hc]; simp, 800 :: blk, ?_, ?_, ?_⟩
    · dsimp only
      rw [he]
      simp [emit]
    · refine List.Pairwise.cons ?_ hpw
      intro x hx
      have := hbd x hx
      omega
    · intro x hx
      rw [hk]
      rcases List.mem_cons.mp hx with rfl | hx
      · decide
      · have := hbd x hx
        have h699 : stepBound (15 - 1) = 699 := rfl
        have h860 : stepBound 15 = 860 := rfl
        refine ⟨?_, ?_, ?_, ?_⟩ <;> omega
  · -- step 16
    rename_i hk
    by_cases hf : (! env.folders_ok) = true
    · rw [if_pos hf] at h
      obtain ⟨rfl, rfl⟩ := Prod.mk.injEq .. |>.mp h
      refine ⟨by simp, [900], by simp [emit], by simp, ?_⟩
      intro x hx
      rw [hk]
      fin_cases hx <;> decide
    · rw [if_neg hf] at h
      by_cases hs2 : (! env.select_ok) = true
      · rw [if_pos hs2] at h
        obtain ⟨rfl, rfl⟩ := Prod.mk.injEq .. |>.mp h
        refine ⟨by simp, [900], by simp [emit], by simp, ?_⟩
        intro x hx
        rw [hk]
        fin_cases hx <;> decide
      · rw [if_neg hs2] at h
        obtain ⟨rfl, rfl⟩ := Prod.mk.injEq .. |>.mp h
        refine ⟨by simp, [900], by simp [emit], by simp, ?_⟩
        intro x hx
        rw [hk]
        fin_cases hx <;> decide
  · -- step 17
    rename_i hk
    obtain ⟨rfl, rfl⟩ := Prod.mk.injEq .. |>.mp h
    refine ⟨by simp, [910], by simp [emit], by simp, ?_⟩
    intro x hx
    rw [hk]
    fin_cases hx <;> decide
  · -- step 18
    rename_i hk
    obtain ⟨rfl, rfl⟩ := Prod.mk.injEq .. |>.mp h
    refine ⟨by simp, [920, 940], by simp [emit], by simp, ?_⟩
    intro x hx
    rw [hk]
    fin_cases hx <;> decide
  · -- default
    obtain ⟨rfl, rfl⟩ := Prod.mk.injEq .. |>.mp h
    exact ⟨by simp, [], by simp, by simp, by simp⟩

theorem run_steps_evGood (env : JobEnv) (fuel : Nat) (s : JobState)
    (h : evGood s) : evGood (run_steps env fuel s) := by
  induction fuel generalizing s with
  | zero => exact h
  | succ n ih =>
      unfold run_steps
      dsimp only [poll_stop]
      by_cases hst : env.stop s.stopIdx
      · rw [if_pos hst]
        exact h
      · rw [if_neg hst]
        generalize hX : ({ s with
          step_counter := s.step_counter + 1
          stopIdx := s.stopIdx + 1 } : JobState) = X
        have hds : do_step env X = ((do_step env X).1, (do_step env X).2) := rfl
        obtain ⟨hmono0, blk, hbe0, hbpw, hbd0⟩ := do_step_events env X _ _ hds
        have hXe : X.events = s.events := by rw [← hX]
        have hXc : X.step_counter = s.step_counter + 1 := by rw [← hX]
        rw [hXe] at hbe0
        rw [hXc] at hbd0 hmono0
        simp only [Nat.add_sub_cancel] at hbd0
        have h2 : evGood (do_step env X).2 := by
          constructor
          · rw [hbe0]
            refine List.pairwise_append.mpr ⟨h.1, hbpw, ?_⟩
            intro x hx y hy
            exact Nat.le_trans ((h.2 x hx).2.2) ((hbd0 y hy).1)
          · intro x hx
            rw [hbe0] at hx
            rcases List.mem_append.mp hx with hx | hx
            · obtain ⟨h1, h2, h3⟩ := h.2 x hx
              refine ⟨h1, h2, Nat.le_trans h3 (stepBound_mono ?_)⟩
              omega
            · obtain ⟨-, h1, h2, h3⟩ := hbd0 x hx
              exact ⟨h1, h2, Nat.le_trans h3 (stepBound_mono hmono0)⟩
        cases hout : (do_step env X).1 with
        | brk =>
            rw [hds, hout]
            exact h2
        | next ok =>
            rw [hds, hout]
            cases ok with
            | true => exact ih _ h2
            | false => exact h2

/-- C1: every run of the configuration job emits a progress trace of the
form `ps ++ [f]`: a non-decreasing body whose values all lie in 1..999
(so it starts at a value ≥ 1 when nonempty and contains no premature
final marker), followed by exactly one final value `f`, which is 0 or
1000 and is 1000 precisely on success.  This covers every exit path: the
database-not-open and ongoing-slot failures (trace `[0]`), cancellation at
any poll, and every step failure. -/
theorem c1_progress_trace (env : JobEnv) :
    ∃ ps f, (job_configure_imap env).events = ps ++ [f] ∧
      (f = 0 ∨ f = 1000) ∧
      List.Sorted (· ≤ ·) ps ∧
      (∀ x ∈ ps, 1 ≤ x ∧ x ≤ 999) ∧
      (f = 1000 ↔ (job_configure_imap env).success = true) := by
  unfold job_configure_imap
  by_cases h1 : (! env.sql_open) = true
  · rw [if_pos h1]
    refine ⟨[], 0, rfl, Or.inl rfl, List.sorted_nil, by simp, ?_⟩
    simp [initial_job_state]
  · rw [if_neg h1]
    by_cases h2 : (! env.alloc_ok) = true
    · rw [if_pos h2]
      refine ⟨[], 0, rfl, Or.inl rfl, List.sorted_nil, by simp, ?_⟩
      simp [initial_job_state]
    · rw [if_neg h2]
      have hinit : evGood (initial_job_state env) := by
        constructor
        · simp [initial_job_state]
        · simp [initial_job_state]
      have hg := run_steps_evGood env JOB_FUEL (initial_job_state env) hinit
      refine ⟨(run_steps env JOB_FUEL (initial_job_state env)).events,
        if (run_steps env JOB_FUEL (initial_job_state env)).success then 1000
        else 0, by simp [emit], ?_, hg.1, ?_, ?_⟩
      · split
        · exact Or.inr rfl
        · exact Or.inl rfl
      · intro x hx
        exact ⟨(hg.2 x hx).1, (hg.2 x hx).2.1⟩
      · cases hsu : (run_steps env JOB_FUEL (initial_job_state env)).success <;>
          simp [hsu]

theorem do_step_probe_stable (env : JobEnv) (s : JobState) (out : StepOutcome)
    (s' : JobState) (h : do_step env s = (out, s'))
    (hc : 12 ≤ s.step_counter) :
    s'.probed = s.probed ∧ s'.param_autoconfig = s.param_autoconfig ∧
    s'.step_counter = s.step_counter := by
  unfold do_step at h
  split at h
  · rename_i hk
    omega
  · rename_i hk
    omega
  · rename_i hk
    omega
  · rename_i hk
    omega
  · rename_i hk
    omega
  · rename_i hk
    omega
  · rename_i hk
    omega
  · rename_i hk
    omega
  · rename_i hk
    omega
  · rename_i hk
    omega
  · rename_i hk
    omega
  · -- step 12
    rename_i hk
    obtain ⟨rfl, rfl⟩ := Prod.mk.injEq .. |>.mp h
    cases hac : s.param_autoconfig with
    | none => simp [hac]
    | some cfg =>
        by_cases hu : (! cfg.mail_user.isEmpty) = true <;> simp [hac, hu]
  · -- step 13
    rename_i hk
    obtain ⟨rfl, rfl⟩ := Prod.mk.injEq .. |>.mp h
    simp
  · -- step 14
    rename_i hk
    dsimp only at h
    have hr : try_imap_connections env (emit s 600)
        ((emit s 600).param_autoconfig.isSome) =
        ((try_imap_connections env (emit s 600)
            ((emit s 600).param_autoconfig.isSome)).1,
         (try_imap_connections env (emit s 600)
            ((emit s 600).param_autoconfig.isSome)).2) := rfl
    obtain ⟨hp, ha, hcc, hsu, blk, he, hpw, hbd⟩ :=
      try_imap_connections_state env (emit s 600)
        ((emit s 600).param_autoconfig.isSome) _ _ hr
    obtain ⟨rfl, rfl⟩ := Prod.mk.injEq .. |>.mp h
    refine ⟨?_, ?_, ?_⟩ <;>
      · dsimp only
        first
        | rw [hp]
        | rw [ha]
        | rw [hcc]
        simp
  · -- step 15
    rename_i hk
    dsimp only at h
    have hr : try_smtp_connections env (emit s 800)
        ((emit s 800).param_autoconfig.isSome) =
        ((try_smtp_connections env (emit s 800)
            ((emit s 800).param_autoconfig.isSome)).1,
         (try_smtp_connections env (emit s 800)
            ((emit s 800).param_autoconfig.isSome)).2) := rfl
    obtain ⟨hp, ha, hcc, hsu, blk, he, hpw, hbd⟩ :=
      try_smtp_connections_state env (emit s 800)
        ((emit s 800).param_autoconfig.isSome) _ _ hr
    obtain ⟨rfl, rfl⟩ := Prod.mk.injEq .. |>.mp h
    refine ⟨?_, ?_, ?_⟩ <;>
      · dsimp only
        first
        | rw [hp]
        | rw [ha]
        | rw [hcc]
        simp
  · -- step 16
    rename_i hk
    by_cases hf : (! env.folders_ok) = true
    · rw [if_pos hf] at h
      obtain ⟨rfl, rfl⟩ := Prod.mk.injEq .. |>.mp h
      simp
    · rw [if_neg hf] at h
      by_cases hs2 : (! env.select_ok) = true
      · rw [if_pos hs2] at h
        obtain ⟨rfl, rfl⟩ := Prod.mk.injEq .. |>.mp h
        simp
      · rw [if_neg hs2] at h
        obtain ⟨rfl, rfl⟩ := Prod.mk.injEq .. |>.mp h
        simp
  · -- step 17
    rename_i hk
    obtain ⟨rfl, rfl⟩ := Prod.mk.injEq .. |>.mp h
    simp
  · -- step 18
    rename_i hk
    obtain ⟨rfl, rfl⟩ := Prod.mk.injEq .. |>.mp h
    simp [emit]
  · -- default
    obtain ⟨rfl, rfl⟩ := Prod.mk.injEq .. |>.mp h
    exact ⟨rfl, rfl, rfl⟩

theorem run_steps_probe_stable (env : JobEnv) (fuel : Nat) :
    ∀ s : JobState, 11 ≤ s.step_counter →
    (run_steps env fuel s).probed = s.probed ∧
    (run_steps env fuel s).param_autoconfig = s.param_autoconfig := by
  induction fuel with
  | zero => exact fun s _ => ⟨rfl, rfl⟩
  | succ n ih =>
      intro s h11
      unfold run_steps
      dsimp only [poll_stop]
      by_cases hst : env.stop s.stopIdx
      · rw [if_pos hst]
        exact ⟨rfl, rfl⟩
      · rw [if_neg hst]
        generalize hX : ({ s with
          step_counter := s.step_counter + 1
          stopIdx := s.stopIdx + 1 } : JobState) = X
        have hXp : X.probed = s.probed := by rw [← hX]
        have hXa : X.param_autoconfig = s.param_autoconfig := by rw [← hX]
        have hXc : X.step_counter = s.step_counter + 1 := by rw [← hX]
        have hds : do_step env X = ((do_step env X).1, (do_step env X).2) := rfl
        obtain ⟨hp2, ha2, hc2⟩ := do_step_probe_stable env X _ _ hds (by omega)
        cases hout : (do_step env X).1 with
        | brk =>
            rw [hds, hout]
            exact ⟨hp2.trans hXp, ha2.trans hXa⟩
        | next ok =>
            rw [hds, hout]
            cases ok with
            | true =>
                obtain ⟨hrp, hra⟩ := ih ((do_step env X).2) (by omega)
                exact ⟨hrp.trans (hp2.trans hXp), hra.trans (ha2.trans hXa)⟩
            | false => exact ⟨hp2.trans hXp, ha2.trans hXa⟩

@[simp] theorem probe_step_param (s : JobState) (url : String)
    (ans : Option LoginParam) : (probe_step s url ans).param = s.param := by
  unfold probe_step
  split <;> rfl

@[simp] theorem probe_step_param_domain (s : JobState) (url : String)
    (ans : Option LoginParam) :
    (probe_step s url ans).param_domain = s.param_domain := by
  unfold probe_step
  split <;> rfl

@[simp] theorem probe_step_param_addr_urlencoded (s : JobState) (url : String)
    (ans : Option LoginParam) :
    (probe_step s url ans).param_addr_urlencoded = s.param_addr_urlencoded := by
  unfold probe_step
  split <;> rfl

@[simp] theorem probe_step_stopIdx (s : JobState) (url : String)
    (ans : Option LoginParam) : (probe_step s url ans).stopIdx = s.stopIdx := by
  unfold probe_step
  split <;> rfl

theorem probe_step_none (s : JobState) (url : String) (ans : Option LoginParam)
    (h : s.param_autoconfig = none) :
    probe_step s url ans =
      { s with param_autoconfig := ans, probed := s.probed ++ [url] } := by
  simp [probe_step, h]

theorem probe_step_some (s : JobState) (url : String) (ans : Option LoginParam)
    (cfg : LoginParam) (h : s.param_autoconfig = some cfg) :
    probe_step s url ans = s := by
  simp [probe_step, h]

@[simp] theorem tick_param (s : JobState) : (tick s).param = s.param := rfl

@[simp] theorem tick_param_autoconfig (s : JobState) :
    (tick s).param_autoconfig = s.param_autoconfig := rfl

@[simp] theorem tick_param_domain (s : JobState) :
    (tick s).param_domain = s.param_domain := rfl

@[simp] theorem tick_param_addr_urlencoded (s : JobState) :
    (tick s).param_addr_urlencoded = s.param_addr_urlencoded := rfl

@[simp] theorem tick_keep_flags (s : JobState) :
    (tick s).keep_flags = s.keep_flags := rfl

@[simp] theorem tick_step_counter (s : JobState) :
    (tick s).step_counter = s.step_counter + 1 := rfl

@[simp] theorem tick_events (s : JobState) : (tick s).events = s.events := rfl

@[simp] theorem tick_success (s : JobState) : (tick s).success = s.success := rfl

@[simp] theorem tick_stopIdx (s : JobState) :
    (tick s).stopIdx = s.stopIdx + 1 := rfl

@[simp] theorem tick_imapIdx (s : JobState) : (tick s).imapIdx = s.imapIdx := rfl

@[simp] theorem tick_smtpIdx (s : JobState) : (tick s).smtpIdx = s.smtpIdx := rfl

@[simp] theorem tick_probed (s : JobState) : (tick s).probed = s.probed := rfl

@[simp] theorem tick_imap_attempts (s : JobState) :
    (tick s).imap_attempts = s.imap_attempts := rfl

@[simp] theorem tick_smtp_attempts (s : JobState) :
    (tick s).smtp_attempts = s.smtp_attempts := rfl

@[simp] theorem tick_imap_connected_here (s : JobState) :
    (tick s).imap_connected_here = s.imap_connected_here := rfl

@[simp] theorem tick_smtp_connected_here (s : JobState) :
    (tick s).smtp_connected_here = s.smtp_connected_here := rfl

theorem run_steps_one (env : JobEnv) (n : Nat) (s : JobState)
    (hst : env.stop s.stopIdx = false) :
    run_steps env (n + 1) s =
      (match do_step env (tick s) with
       | (StepOutcome.brk, s2) => s2
       | (StepOutcome.next ok, s2) =>
           if ok then run_steps env n s2 else s2) := by
  conv_lhs => rw [run_steps]
  dsimp only [poll_stop]
  rw [hst]
  rw [if_neg Bool.false_ne_true]
  rfl

@[simp] theorem probe_step_probed (s : JobState) (url : String)
    (ans : Option LoginParam) :
    (probe_step s url ans).probed =
      if s.param_autoconfig.isNone then s.probed ++ [url] else s.probed := by
  unfold probe_step; split <;> rfl

@[simp] theorem probe_step_param_autoconfig (s : JobState) (url : String)
    (ans : Option LoginParam) :
    (probe_step s url ans).param_autoconfig =
      if s.param_autoconfig.isNone then ans else s.param_autoconfig := by
  unfold probe_step; split <;> rfl

theorem run_steps_probed_stable11 (env : JobEnv) (fuel : Nat) (s : JobState)
    (h : s.step_counter = 11) : (run_steps env fuel s).probed = s.probed :=
  (run_steps_probe_stable env fuel s (by omega)).1

theorem run_steps_ac_stable11 (env : JobEnv) (fuel : Nat) (s : JobState)
    (h : s.step_counter = 11) :
    (run_steps env fuel s).param_autoconfig = s.param_autoconfig :=
  (run_steps_probe_stable env fuel s (by omega)).2

/-- C6: starting from the state entering the network-autoconfig stage
(step counter 4, no autoconfig result yet) and with no cancellation
request, the probe stage issues exactly the seven URLs of spec section
4.1 in order, stopping after (and including) the first URL whose answer
parses to a `LoginParam`, and the autoconfig result is that first
answer. -/
theorem c6_probe_urls (env : JobEnv) (s : JobState)
    (hstop : ∀ n, env.stop n = false)
    (h4 : s.step_counter = 4) (hac : s.param_autoconfig = none) :
    (run_steps env JOB_FUEL s).probed =
      s.probed ++ (autoconfig_urls s.param_domain s.param_addr_urlencoded).take
        ((probe_answers env s.param s.param_domain
            s.param_addr_urlencoded).findIdx (fun a => a.isSome) + 1) ∧
    (run_steps env JOB_FUEL s).param_autoconfig =
      (probe_answers env s.param s.param_domain
        s.param_addr_urlencoded).findSome? id := by
  rw [show JOB_FUEL = 31 + 1 from rfl, run_steps_one env 31 s (hstop _)]
  simp only [do_step, h4, tick_step_counter]
  norm_num
  rw [show (31:Nat) = 30 + 1 from rfl, run_steps_one env 30 _ (hstop _)]
  simp only [do_step, h4, hac, tick_step_counter, probe_step_step_counter,
    tick_param_domain, tick_param_addr_urlencoded, tick_param,
    tick_param_autoconfig, probe_step_param, probe_step_param_domain,
    probe_step_param_addr_urlencoded, emit_step_counter, emit_param,
    emit_param_domain, emit_param_addr_urlencoded, emit_param_autoconfig,
    probe_step_param_autoconfig]
  norm_num
  rw [show (30:Nat) = 29 + 1 from rfl, run_steps_one env 29 _ (hstop _)]
  simp only [do_step, h4, hac, tick_step_counter, probe_step_step_counter,
    tick_param_domain, tick_param_addr_urlencoded, tick_param,
    tick_param_autoconfig, probe_step_param, probe_step_param_domain,
    probe_step_param_addr_urlencoded, emit_step_counter, emit_param,
    emit_param_domain, emit_param_addr_urlencoded, emit_param_autoconfig,
    probe_step_param_autoconfig]
  norm_num
  rw [show (29:Nat) = 28 + 1 from rfl, run_steps_one env 28 _ (hstop _)]
  simp only [do_step, h4, hac, tick_step_counter, probe_step_step_counter,
    tick_param_domain, tick_param_addr_urlencoded, tick_param,
    tick_param_autoconfig, probe_step_param, probe_step_param_domain,
    probe_step_param_addr_urlencoded, emit_step_counter, emit_param,
    emit_param_domain, emit_param_addr_urlencoded, emit_param_autoconfig,
    probe_step_param_autoconfig]
  norm_num
  rw [show (28:Nat) = 27 + 1 from rfl, run_steps_one env 27 _ (hstop _)]
  simp only [do_step, h4, hac, tick_step_counter, probe_step_step_counter,
    tick_param_domain, tick_param_addr_urlencoded, tick_param,
    tick_param_autoconfig, probe_step_param, probe_step_param_domain,
    probe_step_param_addr_urlencoded, emit_step_counter, emit_param,
    emit_param_domain, emit_param_addr_urlencoded, emit_param_autoconfig,
    probe_step_param_autoconfig]
  norm_num
  rw [show (27:Nat) = 26 + 1 from rfl, run_steps_one env 26 _ (hstop _)]
  simp only [do_step, h4, hac, tick_step_counter, probe_step_step_counter,
    tick_param_domain, tick_param_addr_urlencoded, tick_param,
    tick_param_autoconfig, probe_step_param, probe_step_param_domain,
    probe_step_param_addr_urlencoded, emit_step_counter, emit_param,
    emit_param_domain, emit_param_addr_urlencoded, emit_param_autoconfig,
    probe_step_param_autoconfig]
  norm_num
  rw [show (26:Nat) = 25 + 1 from rfl, run_steps_one env 25 _ (hstop _)]
  simp only [do_step, h4, hac, tick_step_counter, probe_step_step_counter,
    tick_param_domain, tick_param_addr_urlencoded, tick_param,
    tick_param_autoconfig, probe_step_param, probe_step_param_domain,
    probe_step_param_addr_urlencoded, emit_step_counter, emit_param,
    emit_param_domain, emit_param_addr_urlencoded, emit_param_autoconfig,
    probe_step_param_autoconfig]
  norm_num
  simp only [run_steps_probed_stable11, run_steps_ac_stable11, h4, hac,
    tick_step_counter, probe_step_step_counter, emit_step_counter,
    Nat.reduceAdd]
  rcases ha1 : env.moz ("https://autoconfig." ++ s.param_domain ++ "/mail/config-v1.1.xml?emailaddress=" ++ s.param_addr_urlencoded) s.param with _ | ca1
  · rcases ha2 : env.moz ("https://" ++ s.param_domain ++ "/.well-known/autoconfig/mail/config-v1.1.xml?emailaddress=" ++ s.param_addr_urlencoded) s.param with _ | ca2
    · rcases ha3 : env.outlk ("https://" ++ s.param_domain ++ "/autodiscover/autodiscover.xml") s.param with _ | ca3
      · rcases ha4 : env.outlk ("https://autodiscover." ++ s.param_domain ++ "/autodiscover/autodiscover.xml") s.param with _ | ca4
        · rcases ha5 : env.moz ("http://autoconfig." ++ s.param_domain ++ "/mail/config-v1.1.xml?emailaddress=" ++ s.param_addr_urlencoded) s.param with _ | ca5
          · rcases ha6 : env.moz ("http://" ++ s.param_domain ++ "/.well-known/autoconfig/mail/config-v1.1.xml") s.param with _ | ca6
            · rcases ha7 : env.moz ("https://autoconfig.thunderbird.net/v1.1/" ++ s.param_domain) s.param with _ | ca7
              · simp [probe_answers, autoconfig_urls, hac, ha1, ha2, ha3, ha4, ha5, ha6, ha7,
                  List.findIdx_cons, List.findSome?_cons, List.append_assoc]
              · simp [probe_answers, autoconfig_urls, hac, ha1, ha2, ha3, ha4, ha5, ha6, ha7,
                  List.findIdx_cons, List.findSome?_cons, List.append_assoc]
            · simp [probe_answers, autoconfig_urls, hac, ha1, ha2, ha3, ha4, ha5, ha6,
                List.findIdx_cons, List.findSome?_cons, List.append_assoc]
          · simp [probe_answers, autoconfig_urls, hac, ha1, ha2, ha3, ha4, ha5,
              List.findIdx_cons, List.findSome?_cons, List.append_assoc]
        · simp [probe_answers, autoconfig_urls, hac, ha1, ha2, ha3, ha4,
            List.findIdx_cons, List.findSome?_cons, List.append_assoc]
      · simp [probe_answers, autoconfig_urls, hac, ha1, ha2, ha3,
          List.findIdx_cons, List.findSome?_cons, List.append_assoc]
    · simp [probe_answers, autoconfig_urls, hac, ha1, ha2,
        List.findIdx_cons, List.findSome?_cons, List.append_assoc]
  · simp [probe_answers, autoconfig_urls, hac, ha1,
      List.findIdx_cons, List.findSome?_cons, List.append_assoc]

theorem c6_probe_urls_witness :
    (∀ n, c6_env.stop n = false) ∧
    c6_state.step_counter = 4 ∧ c6_state.param_autoconfig = none ∧
    ((run_steps c6_env JOB_FUEL c6_state).probed =
      c6_state.probed ++
        (autoconfig_urls c6_state.param_domain
            c6_state.param_addr_urlencoded).take
          ((probe_answers c6_env c6_state.param c6_state.param_domain
              c6_state.param_addr_urlencoded).findIdx (fun a => a.isSome) + 1) ∧
    (run_steps c6_env JOB_FUEL c6_state).param_autoconfig =
      (probe_answers c6_env c6_state.param c6_state.param_domain
        c6_state.param_addr_urlencoded).findSome? id) :=
  ⟨fun _ => rfl, rfl, rfl,
    c6_probe_urls c6_env c6_state (fun _ => rfl) rfl rfl⟩

theorem string_append_left_cancel (a b c : String) (h : a ++ b = a ++ c) :
    b = c := by
  have hd := congrArg String.data h
  simp [String.data_append] at hd
  cases b; cases c
  exact congrArg String.mk (by simpa using hd)

theorem find_append_eq (p k : String) (l : List String) (hk : k ∈ l) :
    l.find? (fun x => p ++ x == p ++ k) = some k := by
  induction l with
  | nil => cases hk
  | cons a t ih =>
      by_cases hak : a = k
      · subst hak; simp [List.find?]
      · have hne : (p ++ a == p ++ k) = false := by
          apply beq_eq_false_iff_ne.mpr
          intro hc
          exact hak (string_append_left_cancel _ _ _ hc)
        rw [List.find?]
        rw [hne]
        cases hk with
        | head => exact absurd rfl hak
        | tail _ hk2 => exact ih hk2

theorem lp_save_get (v : String → String) (store : Store) (p k : String)
    (hk : k ∈ lp_keys) :
    lp_save_to_database v store p (p ++ k) = some (v k) := by
  unfold lp_save_to_database
  rw [find_append_eq p k _ hk]

theorem empty_append_str (s : String) : "" ++ s = s := by
  cases s
  simp [String.data_append]

/-- C2 (amended): the store epilogue of the configure job.  On success
every `configured_raw_` key becomes the current primary value of that
key; on failure every primary key becomes the value stored under
`configured_raw_` — falling back to the default (empty or zero) value
when no snapshot entry exists, not to the originally entered value. -/
theorem c2_epilogue_restores_snapshot (store : Store) :
    ∀ k, k ∈ lp_keys →
      configure_epilogue true store ("configured_raw_" ++ k) =
        some (lp_from_database store "" k) ∧
      configure_epilogue false store k =
        some (lp_from_database store "configured_raw_" k) := by
  intro k hk
  constructor
  · unfold configure_epilogue
    rw [if_pos rfl]
    exact lp_save_get _ _ _ _ hk
  · unfold configure_epilogue
    rw [if_neg (by simp)]
    have := lp_save_get (lp_from_database store "configured_raw_") store "" k hk
    rwa [empty_append_str] at this

theorem c2_epilogue_witness :
    "addr" ∈ lp_keys ∧
    (configure_epilogue true (fun _ => none) ("configured_raw_" ++ "addr") =
        some (lp_from_database (fun _ => none) "" "addr") ∧
      configure_epilogue false (fun _ => none) "addr" =
        some (lp_from_database (fun _ => none) "configured_raw_" "addr")) :=
  ⟨by decide, c2_epilogue_restores_snapshot (fun _ => none) "addr" (by decide)⟩

/-- C2 counterexample.  A first-time failure with no prior success: the
store holds only the originally entered address and no
`configured_raw_` snapshot.  The claim says the primary keys then equal
the originally entered set, but the epilogue overwrites `addr` with the
empty default read from the missing snapshot. -/
theorem c2_counterexample :
    c2_store "addr" = some "a@b.c" ∧
    (∀ k, k ∈ lp_keys → c2_store ("configured_raw_" ++ k) = none) ∧
    configure_epilogue false c2_store "addr" = some "" ∧
    configure_epilogue false c2_store "addr" ≠ some "a@b.c" := by
  refine ⟨rfl, by decide, by decide, by decide⟩

theorem c4_advanced_skip_witness :
    c4_state.step_counter = 4 ∧
    ((∀ u, advanced_params_entered { c4_state.param with mail_user := u } =
        advanced_params_entered c4_state.param) ∧
    (advanced_params_entered c4_state.param = true →
      do_step c4_env c4_state =
        (StepOutcome.next true, { emit c4_state 200 with step_counter := 12 })) ∧
    (advanced_params_entered c4_state.param = false →
      (do_step c4_env c4_state).2.keep_flags =
          and32 c4_state.param.server_flags DC_LP_AUTH_OAUTH2 ∧
      ((do_step c4_env c4_state).2.step_counter,
          (do_step c4_env c4_state).2.param_autoconfig,
          (do_step c4_env c4_state).2.probed) =
        match get_offline_autoconfig c4_env.get_provider_info c4_state.param with
        | some np => (11, some np, c4_state.probed)
        | none => (4, c4_state.param_autoconfig, c4_state.probed))) :=
  ⟨rfl, c4_advanced_skip c4_env c4_state rfl⟩

theorem c5_imap_trial_strategy_witness :
    (∀ n, c6_env.stop n = false) ∧
    ((false = true →
        (try_imap_connections c6_env (initial_job_state c6_env)
            false).2.imap_attempts =
          (initial_job_state c6_env).imap_attempts ++
            [(initial_job_state c6_env).param] ∧
        (try_imap_connections c6_env (initial_job_state c6_env) false).1 =
          c6_env.imap_connect (initial_job_state c6_env).imapIdx) ∧
      (false = false →
        (try_imap_connections c6_env (initial_job_state c6_env)
            false).2.imap_attempts =
          (initial_job_state c6_env).imap_attempts ++
            (imap_trial_plan (initial_job_state c6_env).param).take
              (first_conn_success c6_env.imap_connect
                  (initial_job_state c6_env).imapIdx 6 + 1) ∧
        ((try_imap_connections c6_env (initial_job_state c6_env) false).1 =
            true ↔
          first_conn_success c6_env.imap_connect
              (initial_job_state c6_env).imapIdx 6 < 6))) :=
  ⟨fun _ => rfl,
    c5_imap_trial_strategy c6_env (initial_job_state c6_env) false
      (fun _ => rfl)⟩

theorem c7_migration_from_v49_witness :
    c7_db.has_config_table = true ∧ c7_db.cfg "dbversion" = some 49 ∧
    c7_db.cfg "bcc_self" = none ∧
    ((sql_open_rw c7_db).db.cfg "dbversion" = some 63 ∧
      (sql_open_rw c7_db).db.cfg "show_emails" = some SHOW_EMAILS_ALL ∧
      (sql_open_rw c7_db).db.cfg "bcc_self" = some 1 ∧
      (sql_open_rw c7_db).db.schema = c7_db.schema ++ post49_stmts) :=
  ⟨rfl, by decide, by decide, c7_migration_from_v49 c7_db rfl (by decide) (by decide)⟩

theorem c8_housekeeping_witness :
    collect_files ["$BLOBDIR/x".data] ∅ = some (insert "x".data ∅) ∧
    ("x".data ∈ (insert "x".data (∅ : Finset (List Char))) ↔
      ∃ v ∈ ["$BLOBDIR/x".data], blobdir_marker.isPrefixOf v ∧
        v.drop 9 = "x".data) :=
  ⟨by decide,
    (c8_housekeeping_keeps_referenced_and_young ∅ 0 ⟨"x".data, none⟩).2
      ["$BLOBDIR/x".data] (insert "x".data ∅) (by decide) "x".data⟩

theorem c9_maybe_add_file_witness :
    ¬ blobdir_marker.isPrefixOf "a".data ∧
    maybe_add_file (∅ : Finset (List Char)) "a".data = some ∅ :=
  ⟨by decide, c9_maybe_add_file_partiality.2.1 ∅ "a".data (by decide)⟩

theorem c10_connect_early_paths_witness :
    (c10_lp0.mail_server = none ∨ c10_lp0.mail_user = none ∨
      c10_lp0.mail_pw = none) ∧
    dc_imap_connect c10_env c10_st (some c10_lp0) = (0, c10_st) ∧
    c10_st2.session.isSome = true ∧
    dc_imap_connect c10_env c10_st2 (some c10_lp1) = (1, c10_st2) :=
  ⟨Or.inl rfl,
    (c10_connect_early_paths c10_env c10_st c10_lp0).2.1 (Or.inl rfl),
    rfl,
    (c10_connect_early_paths c10_env c10_st2 c10_lp1).2.2 rfl
      (by decide) (by decide) (by decide)⟩
